import Mathlib

/-!
# irssi text front end: render scheduler, life cycle and sandbox policy

A shallow embedding of `src/fe-text/irssi.c`.  The C globals become fields of one
explicit `State`; every function of the file becomes a state transformer.  Functions
defined outside the file are *external calls*: each one is logged in `State.trace`, and
what it does is supplied by an environment `Env`, which also tells which of the entry
points of `irssi.c` the external code calls back while it runs.

Conventions of the model:
* the `int` flags of the file only ever hold `TRUE` or `FALSE` and are `Bool`s;
* code outside the file touches the state of the file only through `Callback`s; a
  signal is delivered while some external call runs (the process is single-threaded and
  spends its time there), never between two statements of `irssi.c`;
* theorems quantify over every environment `E` and every state, unless they say
  otherwise; the concrete `Env.quiet`, `Env.remarking` and the `State.*` constants
  serve the closed examples.
-/

namespace Irssi

/-! ## External calls and the trace -/

/-- Feature subsystems brought up by `textui_finish_init`; `Event.init s` is the call
`<s>_init()` and `Event.deinit s` the call `<s>_deinit()`. -/
inductive Subsystem
  | textbuffer
  | textbuffer_view
  | textbuffer_commands
  | textbuffer_formats
  | gui_expandos
  | gui_printtext
  | gui_readline
  | gui_entry
  | lastlog
  | mainwindows
  | mainwindow_activity
  | mainwindows_layout
  | gui_windows
  | statusbar
  deriving DecidableEq, Repr

/-- Names of the irssi signals used in `irssi.c`
("gui exit", "command reload", "irssi init finished", "settings userinfo changed",
"module autoload"). -/
inductive SignalName
  | gui_exit
  | command_reload
  | irssi_init_finished
  | settings_userinfo_changed
  | module_autoload
  deriving DecidableEq, Repr

/-- Format identifiers passed to `printformat`. -/
inductive Format
  | TXT_IRSSI_BANNER
  | TXT_WELCOME_FIRSTTIME
  | TXT_WELCOME_INIT_SETTINGS
  deriving DecidableEq, Repr

/-- Setting keys passed to `fe_settings_set_print`. -/
inductive SettingKey
  | real_name
  | user_name
  | nick
  | hostname
  deriving DecidableEq, Repr

/-- Functions defined outside `irssi.c` that the file calls with fixed arguments.
`statusbar_redraw` is `statusbar_redraw(NULL, TRUE)` and `term_refresh` is
`term_refresh(NULL)`: the file never passes other arguments.  Names that spell out an
argument (`settings_get_bool_quit_on_hup`, `getenv_IRSSI_NO_SECCOMP`, ...) are the one
call of that function made by the file. -/
inductive Fn
  | term_resize_dirty
  | term_clear
  | term_refresh
  | mainwindows_redraw
  | statusbar_redraw
  | mainwindows_redraw_dirty
  | statusbar_redraw_dirty
  | term_refresh_freeze
  | term_refresh_thaw
  | sigaction_SIGTRAP_ignore
  | signal_SIGINT_default
  | core_init
  | core_deinit
  | fe_common_core_init
  | fe_common_core_finish_init
  | fe_common_core_deinit
  | theme_register
  | theme_unregister
  | settings_check
  | settings_get_bool_quit_on_hup
  | module_register_core_fe_text
  | term_environment_check
  | term_init
  | term_deinit
  | core_register_options
  | fe_common_core_register_options
  | args_register
  | args_execute
  | printf_version
  | core_preinit
  | stat_irssi_dir
  | setlocale
  | tzset
  | fprintf_stderr_no_screen_handling
  | getenv_IRSSI_NO_SECCOMP
  | seccomp_init
  | seccomp_load
  | seccomp_release
  | fprintf_stderr_rc
  | fprintf_stderr_OK
  | fprintf_stderr_FAIL
  | fprintf_stderr_seccomp_failed
  | g_main_loop_new
  | g_main_context_iteration
  | g_main_loop_unref
  | session_upgrade
  deriving DecidableEq, Repr

/-- One entry of the execution trace: a call of a function defined outside `irssi.c`,
or `dirty_check`, which marks an entry into the static function `dirty_check` itself. -/
inductive Event
  | dirty_check
  | call (f : Fn)
  | init (s : Subsystem)
  | deinit (s : Subsystem)
  | g_log_set_always_fatal (mask : Nat)
  | signal_add (name : SignalName)
  | signal_add_last (name : SignalName)
  | signal_remove (name : SignalName)
  | signal_emit (name : SignalName)
  | module_unload (m : Nat)
  | printformat (f : Format)
  | fe_settings_set_print (k : SettingKey)
  deriving DecidableEq, Repr

/-- The two public marking functions of the scheduler. -/
inductive Mark
  | irssi_set_dirty
  | irssi_redraw
  deriving DecidableEq, Repr

/-- What code outside `irssi.c` can do to the state owned by `irssi.c` while an
external call runs: call a public marking function, emit "gui exit" (which reaches the
handler `sig_exit` while it is registered), emit "settings userinfo changed" (handler
`sig_settings_userinfo_changed`), or have a SIGTERM / SIGHUP delivered, whose handlers in
the core only set `sigterm_received` / `sighup_received`.  Nothing outside `irssi.c`
assigns `quitting`, `dirty` or `full_redraw` directly (the last two are `static`). -/
inductive Callback
  | mark (m : Mark)
  | emit_gui_exit
  | emit_settings_userinfo_changed (changed : Nat)
  | deliver_sigterm
  | deliver_sighup
  deriving DecidableEq, Repr

/-! ## The seccomp policy: data -/

/-- System calls named in `main` (`open_` is `open`). -/
inductive Syscall
  | accept | accept4 | access | bind | brk | clock_gettime | clone | clone3 | close
  | connect | dup2 | epoll_create | epoll_create1 | epoll_ctl | epoll_pwait | epoll_wait
  | eventfd2 | exit_group | fchmod | fcntl | fdatasync | fstat | fsync | futex | getegid
  | geteuid | getgid | getpgrp | getpid | getppid | getrandom | getrusage | getsockname
  | getsockopt | gettid | gettimeofday | getuid | link | listen | lseek | madvise | mkdir
  | mmap | mprotect | mremap | munmap | newfstatat | open_ | openat | pidfd_open | pipe
  | pipe2 | poll | ppoll | pread64 | pselect6 | read | readlink | readv | recvfrom
  | recvmsg | rename | restart_syscall | rseq | rt_sigaction | rt_sigprocmask
  | rt_sigreturn | select | sendmsg | sendmmsg | sendto | set_robust_list | setsockopt
  | sigreturn | socket | stat | statfs | sysinfo | umask | uname | unlink | wait4 | write
  | writev | epoll_pwait2 | kill | ioctl
  deriving DecidableEq, Repr

/-- The system call of a request, as the loaded filter classifies it.  The filter first
looks at the ABI of the call: `foreign nr` is a call made through an ABI other than the
one the filter was built for (on x86-64 the x32 numbers from 0x40000000 up, or a 32-bit
`int 0x80` call), `nr` being its number in that ABI.  A call through the native ABI is
`named s` when its number is that of a system call `s` that `main` names, and `unnamed`
when it is the number of any other system call. -/
inductive Sysno
  | named (s : Syscall)
  | unnamed
  | foreign (nr : Nat)
  deriving DecidableEq, Repr

/-- A call made through the ABI the filter was built for. -/
def Sysno.is_native : Sysno → Bool
  | .named _ => true
  | .unnamed => true
  | .foreign _ => false

/-- Filter actions: `SCMP_ACT_ALLOW`, `SCMP_ACT_ERRNO(e)`, `SCMP_ACT_KILL_PROCESS`, and
`SCMP_ACT_KILL`, which is `SCMP_ACT_KILL_THREAD`. -/
inductive Action
  | ALLOW
  | ERRNO (e : Nat)
  | KILL_PROCESS
  | KILL_THREAD
  deriving DecidableEq, Repr

/-- An argument comparison `SCMP_A<arg>(SCMP_CMP_EQ, datum)`; `irssi.c` uses no other
comparison operator. -/
structure ArgCmp where
  arg : Fin 6
  datum : Nat
  deriving DecidableEq, Repr

/-- One `seccomp_rule_add(ctx, action, syscall, n, cmps...)`. -/
structure Rule where
  action : Action
  syscall : Syscall
  cmps : List ArgCmp
  deriving DecidableEq, Repr

/-- A filter context: the default action given to `seccomp_init`, the action for calls
through a foreign ABI (the filter attribute `SCMP_FLTATR_ACT_BADARCH`), and the rules
added, in the order of the `seccomp_rule_add` calls. -/
structure Policy where
  def_action : Action
  badarch_action : Action
  rules : List Rule
  deriving DecidableEq, Repr

/-! ## State and environment -/

/-- The globals read or written by `irssi.c`, the external state, and the trace.
`freeze` and `always_fatal` live in code outside the file (see `term_refresh_freeze`
and `g_log_set_always_fatal` below); `modules` is the core's list of loaded modules;
`sig_exit_registered` tells whether `sig_exit` is currently connected to "gui exit",
`sig_userinfo_registered` the same for `sig_settings_userinfo_changed`;
`filter` is the seccomp filter loaded into the kernel, if any. -/
structure State (W : Type) where
  dirty : Bool
  full_redraw : Bool
  quitting : Bool
  display_firsttimer : Bool
  user_settings_changed : Nat
  sigterm_received : Bool
  sighup_received : Bool
  freeze : Nat
  always_fatal : Nat
  sig_exit_registered : Bool
  sig_userinfo_registered : Bool
  modules : List Nat
  filter : Option Policy
  world : W
  trace : List Event

/-- The answer of the outside world to one external call: the callbacks into `irssi.c`
made while the call runs, in order, and the C truth value of what the call returns
(non-zero / non-NULL is `true`). -/
structure Reply where
  callbacks : List Callback
  result : Bool

/-- The outside world: how each external call transforms the external state `W` and
what it answers, and the test `servers == NULL && lookup_servers == NULL` on the
core's globals. -/
structure Env (W : Type) where
  call : Event → W → W × Reply
  servers_empty : W → Bool

variable {W : Type}

/-! ## Render scheduler (`irssi.c` lines 74-144) -/

/-- The function `irssi_redraw`: `dirty = TRUE; full_redraw = TRUE;`. -/
def irssi_redraw (st : State W) : State W :=
  { st with dirty := true, full_redraw := true }

/-- The function `irssi_set_dirty`: `dirty = TRUE;`. -/
def irssi_set_dirty (st : State W) : State W :=
  { st with dirty := true }

/-- The handler `sig_exit`: `quitting = TRUE;`. -/
def sig_exit (st : State W) : State W :=
  { st with quitting := true }

/-- The handler `sig_settings_userinfo_changed`:
`user_settings_changed = GPOINTER_TO_UINT(changedp);` (an `unsigned int`). -/
def sig_settings_userinfo_changed (changed : Nat) (st : State W) : State W :=
  { st with user_settings_changed := changed % 2 ^ 32 }

/-- Run one marking call. -/
def Mark.run : Mark → State W → State W
  | .irssi_set_dirty, st => Irssi.irssi_set_dirty st
  | .irssi_redraw, st => Irssi.irssi_redraw st

/-- Run a sequence of marking calls, first call first. -/
def run_marks (ms : List Mark) (st : State W) : State W :=
  ms.foldl (fun s m => m.run s) st

/-- Run one callback made by external code. -/
def Callback.run : Callback → State W → State W
  | .mark m, st => m.run st
  | .emit_gui_exit, st => if st.sig_exit_registered then sig_exit st else st
  | .emit_settings_userinfo_changed c, st =>
    if st.sig_userinfo_registered then sig_settings_userinfo_changed c st else st
  | .deliver_sigterm, st => { st with sigterm_received := true }
  | .deliver_sighup, st => { st with sighup_received := true }

/-- Run the callbacks of one external call, in order. -/
def run_callbacks (cs : List Callback) (st : State W) : State W :=
  cs.foldl (fun s c => c.run s) st

/-- Append an entry to the trace. -/
def log (ev : Event) (st : State W) : State W :=
  { st with trace := st.trace ++ [ev] }

/-- Perform an external call: log it, let the outside world move, run its callbacks. -/
def extcall (E : Env W) (ev : Event) (st : State W) : State W :=
  run_callbacks (E.call ev st.world).2.callbacks
    { log ev st with world := (E.call ev st.world).1 }

/-- Call an external function of fixed arguments. -/
def ext (E : Env W) (f : Fn) (st : State W) : State W :=
  extcall E (.call f) st

/-- The C truth value returned by the external call `f` made in state `st`. -/
def ext_result (E : Env W) (f : Fn) (st : State W) : Bool :=
  (E.call (.call f) st.world).2.result

/-- The statement `if (cond) f(...);` for an external call `ev`. -/
def call_if (E : Env W) (cond : State W → Bool) (ev : Event) (st : State W) : State W :=
  if cond st then extcall E ev st else st

/-- The static function `dirty_check` (lines 120-144). -/
def dirty_check (E : Env W) (st : State W) : State W :=
  let st := log .dirty_check st
  if !st.dirty then st
  else
    let st := ext E .term_resize_dirty st
    let st :=
      if st.full_redraw then
        let st := { st with full_redraw := false }
        let st := ext E .term_clear st
        let st := ext E .term_refresh st
        let st := ext E .mainwindows_redraw st
        ext E .statusbar_redraw st
      else st
    let st := ext E .mainwindows_redraw_dirty st
    let st := ext E .statusbar_redraw_dirty st
    let st := ext E .term_refresh st
    { st with dirty := false }

/-- The scheduler states of the specification, read off the two flags. -/
inductive Level
  | Clean
  | Dirty
  | DirtyFull
  deriving DecidableEq, Repr

/-- Read the scheduler state off the two flags; `none` for `full_redraw` without
`dirty`, which is none of the three. -/
def level (st : State W) : Option Level :=
  match st.dirty, st.full_redraw with
  | false, false => some .Clean
  | true, false => some .Dirty
  | true, true => some .DirtyFull
  | false, true => none

/-- An outside world that does nothing and answers `false` to everything. -/
def Env.quiet : Env Unit where
  call := fun _ _ => ((), ⟨[], false⟩)
  servers_empty := fun _ => true

/-- The state at program start: C zero-initialises the statics and globals;
`fatal` is glib's always-fatal mask at start and `ms` the loaded modules. -/
def State.initial (w : W) (fatal : Nat) (ms : List Nat) : State W where
  dirty := false
  full_redraw := false
  quitting := false
  display_firsttimer := false
  user_settings_changed := 0
  sigterm_received := false
  sighup_received := false
  freeze := 0
  always_fatal := fatal
  sig_exit_registered := false
  sig_userinfo_registered := false
  modules := ms
  filter := none
  world := w
  trace := []

/-! ## Compile-time configuration -/

/-- What the build takes from system and project headers that are not part of
`irssi.c`: which `#ifdef`s hold, and the values of the constants the file names.
`FIONREAD`, `FIONWRITE` and `FIONSPACE` are `none` where the platform does not define
them. -/
structure Build where
  has_SIGTRAP : Bool
  has_clone3 : Bool
  has_rseq : Bool
  has_epoll_pwait2 : Bool
  EPERM : Nat
  SIGTSTP : Nat
  TIOCGWINSZ : Nat
  TCGETS : Nat
  TCSETSW : Nat
  TCSETSF : Nat
  FIONREAD : Option Nat
  FIONWRITE : Option Nat
  FIONSPACE : Option Nat
  USER_SETTINGS_REAL_NAME : Nat
  USER_SETTINGS_USER_NAME : Nat
  USER_SETTINGS_NICK : Nat
  USER_SETTINGS_HOSTNAME : Nat

/-- The values on Linux x86-64 with a current kernel and libseccomp (asm-generic
`ioctls.h`, `signal.h`, `errno.h`; irssi's `settings.h`). -/
def Build.linux_x86_64 : Build where
  has_SIGTRAP := true
  has_clone3 := true
  has_rseq := true
  has_epoll_pwait2 := true
  EPERM := 1
  SIGTSTP := 20
  TIOCGWINSZ := 0x5413
  TCGETS := 0x5401
  TCSETSW := 0x5403
  TCSETSF := 0x5404
  FIONREAD := some 0x541B
  FIONWRITE := none
  FIONSPACE := none
  USER_SETTINGS_REAL_NAME := 1
  USER_SETTINGS_USER_NAME := 2
  USER_SETTINGS_NICK := 4
  USER_SETTINGS_HOSTNAME := 8

/-! ## Refresh batching, log level and signal dispatch (code outside `irssi.c`) -/

/-- Modelled from the spec: `term_refresh_freeze` is defined in the terminal layer, not in
`irssi.c`; the spec has `freeze()` "increment ... a non-negative depth counter". -/
def term_refresh_freeze (E : Env W) (st : State W) : State W :=
  ext E .term_refresh_freeze { st with freeze := st.freeze + 1 }

/-- Modelled from the spec: `term_refresh_thaw` is defined in the terminal layer;
the spec has `thaw()` "decrement" the depth counter and calls a thaw at depth 0 a
programming error, for which this model keeps the depth at 0. -/
def term_refresh_thaw (E : Env W) (st : State W) : State W :=
  ext E .term_refresh_thaw { st with freeze := st.freeze - 1 }

/-- glib: `G_LOG_FATAL_MASK` is `G_LOG_FLAG_RECURSION | G_LOG_LEVEL_ERROR`. -/
def G_LOG_FATAL_MASK : Nat := 5

/-- glib: `G_LOG_LEVEL_CRITICAL` is `1 << 3`. -/
def G_LOG_LEVEL_CRITICAL : Nat := 8

/-- glib's `g_log_set_always_fatal(mask)`: installs `mask` as the always-fatal mask and
returns the mask that was installed before. -/
def g_log_set_always_fatal (E : Env W) (mask : Nat) (st : State W) : State W × Nat :=
  (extcall E (.g_log_set_always_fatal mask) { st with always_fatal := mask },
   st.always_fatal)

/-- Modelled from the spec: `signal_emit` is defined in the core; the spec has each
notification "dispatched synchronously in registration order to zero or more listeners".
The listeners outside `irssi.c` are the external call; `sig_exit`, connected with
`signal_add_last`, runs after them when the signal is "gui exit". -/
def signal_emit (E : Env W) (name : SignalName) (st : State W) : State W :=
  let st := extcall E (.signal_emit name) st
  match name with
  | .gui_exit => if st.sig_exit_registered then sig_exit st else st
  | _ => st

/-! ## Initialisation and teardown (`irssi.c` lines 146-284) -/

/-- The static function `textui_init` (lines 146-165).  The assignment
`irssi_gui = IRSSI_GUI_TEXT` writes a global of the core that `irssi.c` never reads and
is left out. -/
def textui_init (B : Build) (E : Env W) (st : State W) : State W :=
  let st := call_if E (fun _ => B.has_SIGTRAP) (.call .sigaction_SIGTRAP_ignore) st
  let st := ext E .core_init st
  let st := ext E .fe_common_core_init st
  let st := ext E .theme_register st
  let st := extcall E (.signal_add .settings_userinfo_changed)
    { st with sig_userinfo_registered := true }
  let st := extcall E (.signal_add .module_autoload) st
  extcall E (.signal_add_last .gui_exit) { st with sig_exit_registered := true }

/-- The static function `critical_fatal_section_begin` (lines 167-170):
returns the state and the previous mask. -/
def critical_fatal_section_begin (E : Env W) (st : State W) : State W × Nat :=
  g_log_set_always_fatal E (G_LOG_FATAL_MASK ||| G_LOG_LEVEL_CRITICAL) st

/-- The static function `critical_fatal_section_end` (lines 172-175). -/
def critical_fatal_section_end (E : Env W) (loglev : Nat) (st : State W) : State W :=
  (g_log_set_always_fatal E loglev st).1

/-- First part of `textui_finish_init` (lines 180-203), up to its `dirty_check()`. -/
def textui_finish_init_pre (E : Env W) (st : State W) : State W :=
  let st := { st with quitting := false }
  let st := term_refresh_freeze E st
  let st := extcall E (.init .textbuffer) st
  let st := extcall E (.init .textbuffer_view) st
  let st := extcall E (.init .textbuffer_commands) st
  let st := extcall E (.init .textbuffer_formats) st
  let st := extcall E (.init .gui_expandos) st
  let st := extcall E (.init .gui_printtext) st
  let st := extcall E (.init .gui_readline) st
  let st := extcall E (.init .gui_entry) st
  let st := extcall E (.init .lastlog) st
  let st := extcall E (.init .mainwindows) st
  let st := extcall E (.init .mainwindow_activity) st
  let st := extcall E (.init .mainwindows_layout) st
  let st := extcall E (.init .gui_windows) st
  let b := critical_fatal_section_begin E st
  let st := extcall E (.init .statusbar) b.1
  let st := critical_fatal_section_end E b.2 st
  let st := ext E .settings_check st
  ext E .module_register_core_fe_text st

/-- The welcome messages of `textui_finish_init` (lines 216-234). -/
def print_welcome (B : Build) (E : Env W) (st : State W) : State W :=
  let st := call_if E (fun s => E.servers_empty s.world) (.printformat .TXT_IRSSI_BANNER) st
  let st := call_if E (fun s => s.display_firsttimer) (.printformat .TXT_WELCOME_FIRSTTIME) st
  let st := call_if E (fun s => s.user_settings_changed != 0)
    (.printformat .TXT_WELCOME_INIT_SETTINGS) st
  let st := call_if E (fun s => s.user_settings_changed &&& B.USER_SETTINGS_REAL_NAME != 0)
    (.fe_settings_set_print .real_name) st
  let st := call_if E (fun s => s.user_settings_changed &&& B.USER_SETTINGS_USER_NAME != 0)
    (.fe_settings_set_print .user_name) st
  let st := call_if E (fun s => s.user_settings_changed &&& B.USER_SETTINGS_NICK != 0)
    (.fe_settings_set_print .nick) st
  call_if E (fun s => s.user_settings_changed &&& B.USER_SETTINGS_HOSTNAME != 0)
    (.fe_settings_set_print .hostname) st

/-- Last part of `textui_finish_init` (lines 207-236), after its `dirty_check()`. -/
def textui_finish_init_post (B : Build) (E : Env W) (st : State W) : State W :=
  let b := critical_fatal_section_begin E st
  let st := ext E .fe_common_core_finish_init b.1
  let st := critical_fatal_section_end E b.2 st
  let st := term_refresh_thaw E st
  let st := signal_emit E .irssi_init_finished st
  let st := ext E .statusbar_redraw st
  let st := print_welcome B E st
  ext E .term_environment_check st

/-- The static function `textui_finish_init` (lines 177-237). -/
def textui_finish_init (B : Build) (E : Env W) (st : State W) : State W :=
  textui_finish_init_post B E (dirty_check E (textui_finish_init_pre E st))

/-- Modelled from the spec: `module_unload` is defined in the core, not in `irssi.c`;
teardown is to "unload dynamic feature modules", so the call takes the module at the
head of the core's list off that list. -/
def module_unload (E : Env W) (m : Nat) (st : State W) : State W :=
  extcall E (.module_unload m) { st with modules := st.modules.tail }

/-- The loop `while (modules != NULL) module_unload(modules->data);` of `textui_deinit`,
run on the module list `ms`: one call per module, head first. -/
def unload_modules (E : Env W) : List Nat → State W → State W
  | [], st => st
  | m :: ms, st => unload_modules E ms (module_unload E m st)

/-- First part of `textui_deinit` (lines 241-245), up to its `dirty_check()`. -/
def textui_deinit_pre (E : Env W) (st : State W) : State W :=
  let st := ext E .signal_SIGINT_default st
  let st := term_refresh_freeze E st
  unload_modules E st.modules st

/-- Last part of `textui_deinit` (lines 248-273), after its `dirty_check()`. -/
def textui_deinit_post (E : Env W) (st : State W) : State W :=
  let st := extcall E (.signal_remove .settings_userinfo_changed)
    { st with sig_userinfo_registered := false }
  let st := extcall E (.signal_remove .module_autoload) st
  let st := extcall E (.signal_remove .gui_exit) { st with sig_exit_registered := false }
  let st := extcall E (.deinit .lastlog) st
  let st := extcall E (.deinit .statusbar) st
  let st := extcall E (.deinit .gui_entry) st
  let st := extcall E (.deinit .gui_printtext) st
  let st := extcall E (.deinit .gui_readline) st
  let st := extcall E (.deinit .gui_windows) st
  let st := extcall E (.deinit .mainwindows_layout) st
  let st := extcall E (.deinit .mainwindow_activity) st
  let st := extcall E (.deinit .mainwindows) st
  let st := extcall E (.deinit .gui_expandos) st
  let st := extcall E (.deinit .textbuffer_formats) st
  let st := extcall E (.deinit .textbuffer_commands) st
  let st := extcall E (.deinit .textbuffer_view) st
  let st := extcall E (.deinit .textbuffer) st
  let st := term_refresh_thaw E st
  let st := ext E .term_deinit st
  let st := ext E .theme_unregister st
  let st := ext E .fe_common_core_deinit st
  ext E .core_deinit st

/-- The static function `textui_deinit` (lines 239-274). -/
def textui_deinit (E : Env W) (st : State W) : State W :=
  textui_deinit_post E (dirty_check E (textui_deinit_pre E st))

/-- The static function `check_files` (lines 276-284): a failing `stat` of the irssi
directory means a first run. -/
def check_files (E : Env W) (st : State W) : State W :=
  let failed := ext_result E .stat_irssi_dir st
  let st := ext E .stat_irssi_dir st
  if failed then { st with display_firsttimer := true } else st

/-! ## The seccomp policy built by `main` (lines 339-446) -/

/-- The rule `seccomp_rule_add(ctx, SCMP_ACT_ALLOW, SCMP_SYS(s), 0)`. -/
def allow (s : Syscall) : Rule :=
  { action := .ALLOW, syscall := s, cmps := [] }

/-- The rule `seccomp_rule_add(ctx, SCMP_ACT_ALLOW, SCMP_SYS(s), 1, SCMP_A1(SCMP_CMP_EQ, d))`. -/
def allow_A1_EQ (s : Syscall) (d : Nat) : Rule :=
  { action := .ALLOW, syscall := s, cmps := [{ arg := 1, datum := d }] }

/-- A rule under `#ifdef`: present when the flag holds. -/
def ifdef (flag : Bool) (r : Rule) : List Rule :=
  if flag then [r] else []

/-- An `ioctl` rule under `#ifdef` of its request constant. -/
def ifdef_ioctl (request : Option Nat) : List Rule :=
  match request with
  | some d => [allow_A1_EQ .ioctl d]
  | none => []

/-- The unconditional rules of lines 342-348. -/
def rules_accept_to_clone : List Rule :=
  [allow .accept, allow .accept4, allow .access, allow .bind, allow .brk,
   allow .clock_gettime, allow .clone]

/-- The unconditional rules of lines 352-406. -/
def rules_close_to_restart_syscall : List Rule :=
  [allow .close, allow .connect, allow .dup2, allow .epoll_create, allow .epoll_create1,
   allow .epoll_ctl, allow .epoll_pwait, allow .epoll_wait, allow .eventfd2,
   allow .exit_group, allow .fchmod, allow .fcntl, allow .fdatasync, allow .fstat,
   allow .fsync, allow .futex, allow .getegid, allow .geteuid, allow .getgid,
   allow .getpgrp, allow .getpid, allow .getppid, allow .getrandom, allow .getrusage,
   allow .getsockname, allow .getsockopt, allow .gettid, allow .gettimeofday,
   allow .getuid, allow .link, allow .listen, allow .lseek, allow .madvise,
   allow .mkdir, allow .mmap, allow .mprotect, allow .mremap, allow .munmap,
   allow .newfstatat, allow .open_, allow .openat, allow .pidfd_open, allow .pipe,
   allow .pipe2, allow .poll, allow .ppoll, allow .pread64, allow .pselect6,
   allow .read, allow .readlink, allow .readv, allow .recvfrom, allow .recvmsg,
   allow .rename, allow .restart_syscall]

/-- The unconditional rules of lines 410-429. -/
def rules_rt_sigaction_to_writev : List Rule :=
  [allow .rt_sigaction, allow .rt_sigprocmask, allow .rt_sigreturn, allow .select,
   allow .sendmsg, allow .sendmmsg, allow .sendto, allow .set_robust_list,
   allow .setsockopt, allow .sigreturn, allow .socket, allow .stat, allow .statfs,
   allow .sysinfo, allow .umask, allow .uname, allow .unlink, allow .wait4,
   allow .write, allow .writev]

/-- The rules with an argument comparison of lines 433-437. -/
def rules_kill_ioctl (B : Build) : List Rule :=
  [allow_A1_EQ .kill B.SIGTSTP,
   allow_A1_EQ .ioctl B.TIOCGWINSZ,
   allow_A1_EQ .ioctl B.TCGETS,
   allow_A1_EQ .ioctl B.TCSETSW,
   allow_A1_EQ .ioctl B.TCSETSF]

/-- The rules added by `main` (lines 342-446), in source order, for the case that every
`seccomp_rule_add` succeeds. -/
def sandbox_rules (B : Build) : List Rule :=
  rules_accept_to_clone
  ++ ifdef B.has_clone3 (allow .clone3)
  ++ rules_close_to_restart_syscall
  ++ ifdef B.has_rseq (allow .rseq)
  ++ rules_rt_sigaction_to_writev
  ++ ifdef B.has_epoll_pwait2 (allow .epoll_pwait2)
  ++ rules_kill_ioctl B
  ++ ifdef_ioctl B.FIONREAD
  ++ ifdef_ioctl B.FIONWRITE
  ++ ifdef_ioctl B.FIONSPACE

/-- libseccomp's `seccomp_init(def_action)`: a context without rules, for the native
architecture only, whose bad-architecture action is the library default `SCMP_ACT_KILL`. -/
def seccomp_init (def_action : Action) : Policy :=
  { def_action := def_action, badarch_action := .KILL_THREAD, rules := [] }

/-- The filter context built by `main`: `seccomp_init(SCMP_ACT_ERRNO(EPERM))` and the
rules above.  `main` sets no filter attribute and adds no architecture, so the
bad-architecture action stays as `seccomp_init` left it. -/
def sandbox_policy (B : Build) : Policy :=
  { seccomp_init (.ERRNO B.EPERM) with rules := sandbox_rules B }

/-- A system call as the filter sees it: its ABI and number, and its six argument
registers. -/
structure Request where
  nr : Sysno
  args : Fin 6 → Nat

/-- An argument comparison `SCMP_CMP_EQ` holds when the argument equals the datum. -/
def ArgCmp.holds (c : ArgCmp) (q : Request) : Bool :=
  q.args c.arg == c.datum

/-- A rule matches a request for its system call on which all its comparisons hold
(libseccomp: the comparisons of one rule are and-ed). -/
def Rule.fits (r : Rule) (q : Request) : Bool :=
  (q.nr == .named r.syscall) && r.cmps.all (fun c => c.holds q)

/-- The decision of a loaded filter (libseccomp): for a call through a foreign ABI the
bad-architecture action; for a native call the action of a matching rule, and the
default action when no rule matches. -/
def Policy.eval (p : Policy) (q : Request) : Action :=
  match q.nr with
  | .foreign _ => p.badarch_action
  | _ =>
    match p.rules.find? (fun r => r.fits q) with
    | some r => r.action
    | none => p.def_action

/-- The rules of a policy for one system call. -/
def Policy.rules_for (p : Policy) (s : Syscall) : List Rule :=
  p.rules.filter (fun r => r.syscall == s)

/-- A request through the native ABI for system call `s` whose second argument register
(`SCMP_A1`) holds `a1` and all others hold 0. -/
def Request.with_A1 (s : Syscall) (a1 : Nat) : Request :=
  { nr := .named s, args := fun i => if i = 1 then a1 else 0 }

/-- The call `getpid()` made through the x32 ABI on x86-64: number 0x40000027. -/
def Request.x32_getpid : Request :=
  { nr := .foreign 0x40000027, args := fun _ => 0 }

/-! ## `main` (lines 286-493) -/

/-- The seccomp block of `main` (lines 335-458).  `seccomp_load` returns 0 on success,
which is the answer `false`; only then is the filter in force. -/
def install_sandbox (B : Build) (E : Env W) (st : State W) : State W :=
  let no_seccomp := ext_result E .getenv_IRSSI_NO_SECCOMP st
  let st := ext E .getenv_IRSSI_NO_SECCOMP st
  if no_seccomp then st
  else
    let ctx := ext_result E .seccomp_init st
    let st := ext E .seccomp_init st
    if ctx then
      let st := ext E .fprintf_stderr_rc st
      let load_failed := ext_result E .seccomp_load st
      let st := ext E .seccomp_load st
      let st :=
        if load_failed then ext E .fprintf_stderr_FAIL st
        else ext E .fprintf_stderr_OK { st with filter := some (sandbox_policy B) }
      ext E .seccomp_release st
    else ext E .fprintf_stderr_seccomp_failed st

/-- Lines 465-468 of the event loop: the terminate flag. -/
def handle_sigterm (E : Env W) (st : State W) : State W :=
  if st.sigterm_received then
    signal_emit E .gui_exit { st with sigterm_received := false }
  else st

/-- Lines 470-479 of the event loop: the hangup flag. -/
def handle_sighup (E : Env W) (st : State W) : State W :=
  if st.sighup_received then
    let st := { st with sighup_received := false }
    let quit_on_hup := ext_result E .settings_get_bool_quit_on_hup st
    let st := ext E .settings_get_bool_quit_on_hup st
    if quit_on_hup then signal_emit E .gui_exit st
    else signal_emit E .command_reload st
  else st

/-- One pass through the body of the event loop (lines 465-485). -/
def main_iteration (E : Env W) (st : State W) : State W :=
  let st := handle_sigterm E st
  let st := handle_sighup E st
  let st := dirty_check E st
  let st := term_refresh_freeze E st
  let st := ext E .g_main_context_iteration st
  term_refresh_thaw E st

/-- The event loop `while (!quitting) { ... }` (lines 464-486), run for at most `fuel`
iterations: the state on leaving the loop, or `none` when the fuel runs out first. -/
def main_loop (E : Env W) : Nat → State W → Option (State W)
  | 0, st => if st.quitting then some st else none
  | fuel + 1, st => if st.quitting then some st else main_loop E fuel (main_iteration E st)

/-- The function `main` up to the event loop (lines 295-460): an early `return` with
its exit code, or the state on reaching the loop.  `args_execute` answers whether
`--version` was given. -/
def main_startup (B : Build) (E : Env W) (st : State W) : Except (State W × Int) (State W) :=
  let st := ext E .core_register_options st
  let st := ext E .fe_common_core_register_options st
  let st := ext E .args_register st
  let version := ext_result E .args_execute st
  let st := ext E .args_execute st
  if version then .error (ext E .printf_version st, 0)
  else
    let st := { st with quitting := false }
    let st := ext E .core_preinit st
    let st := check_files E st
    let st := ext E .setlocale st
    let st := ext E .tzset st
    let b := critical_fatal_section_begin E st
    let st := textui_init B E b.1
    let term_ok := ext_result E .term_init st
    let st := ext E .term_init st
    if !term_ok then .error (ext E .fprintf_stderr_no_screen_handling st, 1)
    else
      let st := critical_fatal_section_end E b.2 st
      let st := textui_finish_init B E st
      let st := install_sandbox B E st
      .ok (ext E .g_main_loop_new st)

/-- The function `main` after the event loop (lines 488-492). -/
def main_shutdown (E : Env W) (st : State W) : State W :=
  let st := ext E .g_main_loop_unref st
  let st := textui_deinit E st
  ext E .session_upgrade st

/-- The function `main`: the final state and the exit code, or `none` when the event
loop is still running after `fuel` iterations. -/
def main (B : Build) (E : Env W) (fuel : Nat) (st : State W) : Option (State W × Int) :=
  match main_startup B E st with
  | .error r => some r
  | .ok st =>
    match main_loop E fuel st with
    | none => none
    | some st => some (main_shutdown E st, 0)

/-! ## Reading traces -/

/-- The events a state `after` has logged beyond those of an earlier state `before`. -/
def new_events (before after : State W) : List Event :=
  after.trace.drop before.trace.length

/-- The subsystems initialised in a trace, in order. -/
def inits (tr : List Event) : List Subsystem :=
  tr.filterMap fun
    | .init s => some s
    | _ => none

/-- The subsystems deinitialised in a trace, in order. -/
def deinits (tr : List Event) : List Subsystem :=
  tr.filterMap fun
    | .deinit s => some s
    | _ => none

/-- The masks passed to `g_log_set_always_fatal` in a trace, in order. -/
def fatal_masks (tr : List Event) : List Nat :=
  tr.filterMap fun
    | .g_log_set_always_fatal m => some m
    | _ => none

/-- The functions `dirty_check` calls: resize, clear, refresh and the four repaints. -/
def Event.is_hook : Event → Bool
  | .call .term_resize_dirty => true
  | .call .term_clear => true
  | .call .term_refresh => true
  | .call .mainwindows_redraw => true
  | .call .statusbar_redraw => true
  | .call .mainwindows_redraw_dirty => true
  | .call .statusbar_redraw_dirty => true
  | _ => false

/-- The calls of a flush without full repaint. -/
def hooks_incremental : List Event :=
  [.call .term_resize_dirty, .call .mainwindows_redraw_dirty, .call .statusbar_redraw_dirty,
   .call .term_refresh]

/-- The calls of a flush with full repaint. -/
def hooks_full : List Event :=
  [.call .term_resize_dirty, .call .term_clear, .call .term_refresh,
   .call .mainwindows_redraw, .call .statusbar_redraw, .call .mainwindows_redraw_dirty,
   .call .statusbar_redraw_dirty, .call .term_refresh]

/-- The functions `dirty_check` calls after `term_resize_dirty`, that is after its test
of `full_redraw` or inside the tested block. -/
def late_hooks : List Fn :=
  [.term_clear, .term_refresh, .mainwindows_redraw, .statusbar_redraw,
   .mainwindows_redraw_dirty, .statusbar_redraw_dirty]

/-- The invariant of the scheduler: `full_redraw` implies `dirty`. -/
def Inv (st : State W) : Prop :=
  st.full_redraw = true → st.dirty = true

/-! ## Concrete states and environments -/

/-- A state at program start with glib's default always-fatal mask and no modules. -/
def State.start : State Unit :=
  State.initial () G_LOG_FATAL_MASK []

/-- The `Dirty` state at freeze depth 1. -/
def State.dirty_frozen : State Unit :=
  { State.start with dirty := true, freeze := 1 }

/-- The start state with `sig_exit` connected and a SIGTERM pending. -/
def State.sigterm_pending : State Unit :=
  { State.start with sig_exit_registered := true, sigterm_received := true }

/-- The `Dirty` state at freeze depth 0. -/
def State.dirty_only : State Unit :=
  { State.start with dirty := true }

/-- The `DirtyFull` state at freeze depth 0. -/
def State.dirty_full : State Unit :=
  { State.start with dirty := true, full_redraw := true }

/-- An outside world in which `statusbar_redraw_dirty` calls `irssi_redraw` and all
else does nothing. -/
def Env.remarking : Env Unit where
  call := fun ev _ =>
    match ev with
    | .call .statusbar_redraw_dirty => ((), ⟨[.mark .irssi_redraw], false⟩)
    | _ => ((), ⟨[], false⟩)
  servers_empty := fun _ => true

/-- An outside world in which `term_resize_dirty` calls `irssi_redraw` (as a resize of
the terminal makes it do) and all else does nothing. -/
def Env.resizing : Env Unit where
  call := fun ev _ =>
    match ev with
    | .call .term_resize_dirty => ((), ⟨[.mark .irssi_redraw], false⟩)
    | _ => ((), ⟨[], false⟩)
  servers_empty := fun _ => true

/-! ## Basic facts about marks, callbacks and external calls -/

theorem new_events_of_append {a b : State W} {l : List Event} (h : b.trace = a.trace ++ l) :
    new_events a b = l := by
  unfold new_events; rw [h]; exact List.drop_left _ _

@[simp] theorem log_trace (ev : Event) (st : State W) :
    (log ev st).trace = st.trace ++ [ev] := rfl

@[simp] theorem log_dirty (ev : Event) (st : State W) : (log ev st).dirty = st.dirty := rfl

@[simp] theorem log_full_redraw (ev : Event) (st : State W) :
    (log ev st).full_redraw = st.full_redraw := rfl

@[simp] theorem log_freeze (ev : Event) (st : State W) : (log ev st).freeze = st.freeze := rfl

theorem callback_run_trace (c : Callback) (st : State W) : (c.run st).trace = st.trace := by
  cases c with
  | mark m => cases m <;> rfl
  | emit_gui_exit => simp only [Callback.run]; split <;> rfl
  | emit_settings_userinfo_changed n => simp only [Callback.run]; split <;> rfl
  | _ => rfl

theorem callback_run_freeze (c : Callback) (st : State W) :
    (c.run st).freeze = st.freeze := by
  cases c with
  | mark m => cases m <;> rfl
  | emit_gui_exit => simp only [Callback.run]; split <;> rfl
  | emit_settings_userinfo_changed n => simp only [Callback.run]; split <;> rfl
  | _ => rfl

theorem callback_run_dirty (c : Callback) (st : State W) (h : st.dirty = true) :
    (c.run st).dirty = true := by
  cases c with
  | mark m => cases m <;> simp [Callback.run, Mark.run, irssi_set_dirty, irssi_redraw]
  | emit_gui_exit => simp only [Callback.run]; split <;> simp [sig_exit, h]
  | emit_settings_userinfo_changed n =>
    simp only [Callback.run]; split <;> simp [sig_settings_userinfo_changed, h]
  | _ => simpa [Callback.run] using h

theorem callback_run_full (c : Callback) (st : State W) (h : st.full_redraw = true) :
    (c.run st).full_redraw = true := by
  cases c with
  | mark m => cases m <;> simp [Callback.run, Mark.run, irssi_set_dirty, irssi_redraw, h]
  | emit_gui_exit => simp only [Callback.run]; split <;> simp [sig_exit, h]
  | emit_settings_userinfo_changed n =>
    simp only [Callback.run]; split <;> simp [sig_settings_userinfo_changed, h]
  | _ => simpa [Callback.run] using h

/-- A callback other than `irssi_redraw` leaves `full_redraw` as it is. -/
theorem callback_run_full_eq (c : Callback) (st : State W)
    (hc : c ≠ .mark .irssi_redraw) : (c.run st).full_redraw = st.full_redraw := by
  cases c with
  | mark m =>
    cases m with
    | irssi_set_dirty => rfl
    | irssi_redraw => exact absurd rfl hc
  | emit_gui_exit => simp only [Callback.run]; split <;> rfl
  | emit_settings_userinfo_changed n => simp only [Callback.run]; split <;> rfl
  | _ => rfl

theorem run_callbacks_cons (c : Callback) (cs : List Callback) (st : State W) :
    run_callbacks (c :: cs) st = run_callbacks cs (c.run st) := rfl

theorem run_callbacks_trace (cs : List Callback) (st : State W) :
    (run_callbacks cs st).trace = st.trace := by
  induction cs generalizing st with
  | nil => rfl
  | cons c cs ih => rw [run_callbacks_cons, ih, callback_run_trace]

theorem run_callbacks_freeze (cs : List Callback) (st : State W) :
    (run_callbacks cs st).freeze = st.freeze := by
  induction cs generalizing st with
  | nil => rfl
  | cons c cs ih => rw [run_callbacks_cons, ih, callback_run_freeze]

theorem run_callbacks_dirty (cs : List Callback) (st : State W) (h : st.dirty = true) :
    (run_callbacks cs st).dirty = true := by
  induction cs generalizing st with
  | nil => exact h
  | cons c cs ih => exact ih (c.run st) (callback_run_dirty c st h)

theorem run_callbacks_full (cs : List Callback) (st : State W) (h : st.full_redraw = true) :
    (run_callbacks cs st).full_redraw = true := by
  induction cs generalizing st with
  | nil => exact h
  | cons c cs ih => exact ih (c.run st) (callback_run_full c st h)

theorem run_callbacks_full_eq (cs : List Callback) (st : State W)
    (hcs : Callback.mark .irssi_redraw ∉ cs) :
    (run_callbacks cs st).full_redraw = st.full_redraw := by
  induction cs generalizing st with
  | nil => rfl
  | cons c cs ih =>
    rw [run_callbacks_cons, ih (c.run st) (fun h => hcs (List.mem_cons_of_mem _ h)),
      callback_run_full_eq c st (fun h => hcs (h ▸ List.mem_cons_self _ _))]

@[simp] theorem extcall_trace (E : Env W) (ev : Event) (st : State W) :
    (extcall E ev st).trace = st.trace ++ [ev] := by
  unfold extcall; rw [run_callbacks_trace]; rfl

@[simp] theorem extcall_freeze (E : Env W) (ev : Event) (st : State W) :
    (extcall E ev st).freeze = st.freeze := by
  unfold extcall; rw [run_callbacks_freeze]; rfl

theorem extcall_dirty (E : Env W) (ev : Event) (st : State W) (h : st.dirty = true) :
    (extcall E ev st).dirty = true := by
  unfold extcall; exact run_callbacks_dirty _ _ h

theorem extcall_full (E : Env W) (ev : Event) (st : State W) (h : st.full_redraw = true) :
    (extcall E ev st).full_redraw = true := by
  unfold extcall; exact run_callbacks_full _ _ h

@[simp] theorem ext_trace (E : Env W) (f : Fn) (st : State W) :
    (ext E f st).trace = st.trace ++ [.call f] := extcall_trace E _ st

@[simp] theorem ext_freeze (E : Env W) (f : Fn) (st : State W) :
    (ext E f st).freeze = st.freeze := extcall_freeze E _ st

theorem ext_dirty (E : Env W) (f : Fn) (st : State W) (h : st.dirty = true) :
    (ext E f st).dirty = true := extcall_dirty E _ st h

theorem ext_full (E : Env W) (f : Fn) (st : State W) (h : st.full_redraw = true) :
    (ext E f st).full_redraw = true := extcall_full E _ st h

/-- A hook that makes no `irssi_redraw` callback leaves `full_redraw` as it is. -/
theorem ext_full_eq (E : Env W) (f : Fn) (st : State W)
    (h : Callback.mark .irssi_redraw ∉ (E.call (.call f) st.world).2.callbacks) :
    (ext E f st).full_redraw = st.full_redraw := by
  unfold ext extcall
  rw [run_callbacks_full_eq _ _ h]; rfl

@[simp] theorem call_if_trace (E : Env W) (c : State W → Bool) (ev : Event) (st : State W) :
    (call_if E c ev st).trace = st.trace ++ (if c st then [ev] else []) := by
  unfold call_if; split <;> simp

/-! ## Fields that external calls leave alone -/

theorem callback_run_world (c : Callback) (st : State W) : (c.run st).world = st.world := by
  cases c with
  | mark m => cases m <;> rfl
  | emit_gui_exit => simp only [Callback.run]; split <;> rfl
  | emit_settings_userinfo_changed n => simp only [Callback.run]; split <;> rfl
  | _ => rfl

theorem callback_run_always_fatal (c : Callback) (st : State W) :
    (c.run st).always_fatal = st.always_fatal := by
  cases c with
  | mark m => cases m <;> rfl
  | emit_gui_exit => simp only [Callback.run]; split <;> rfl
  | emit_settings_userinfo_changed n => simp only [Callback.run]; split <;> rfl
  | _ => rfl

theorem callback_run_registered (c : Callback) (st : State W) :
    (c.run st).sig_exit_registered = st.sig_exit_registered := by
  cases c with
  | mark m => cases m <;> rfl
  | emit_gui_exit => simp only [Callback.run]; split <;> rfl
  | emit_settings_userinfo_changed n => simp only [Callback.run]; split <;> rfl
  | _ => rfl

theorem callback_run_quitting (c : Callback) (st : State W) (h : st.quitting = true) :
    (c.run st).quitting = true := by
  cases c with
  | mark m => cases m <;> exact h
  | emit_gui_exit => simp only [Callback.run]; split <;> simp [sig_exit, h]
  | emit_settings_userinfo_changed n =>
    simp only [Callback.run]; split <;> simp [sig_settings_userinfo_changed, h]
  | _ => exact h

theorem callback_run_sigterm (c : Callback) (st : State W) (hc : c ≠ .deliver_sigterm) :
    (c.run st).sigterm_received = st.sigterm_received := by
  cases c with
  | mark m => cases m <;> rfl
  | emit_gui_exit => simp only [Callback.run]; split <;> rfl
  | emit_settings_userinfo_changed n => simp only [Callback.run]; split <;> rfl
  | deliver_sigterm => exact absurd rfl hc
  | deliver_sighup => rfl

theorem callback_run_sighup (c : Callback) (st : State W) (hc : c ≠ .deliver_sighup) :
    (c.run st).sighup_received = st.sighup_received := by
  cases c with
  | mark m => cases m <;> rfl
  | emit_gui_exit => simp only [Callback.run]; split <;> rfl
  | emit_settings_userinfo_changed n => simp only [Callback.run]; split <;> rfl
  | deliver_sigterm => rfl
  | deliver_sighup => exact absurd rfl hc

theorem run_callbacks_world (cs : List Callback) (st : State W) :
    (run_callbacks cs st).world = st.world := by
  induction cs generalizing st with
  | nil => rfl
  | cons c cs ih => rw [run_callbacks_cons, ih, callback_run_world]

theorem run_callbacks_always_fatal (cs : List Callback) (st : State W) :
    (run_callbacks cs st).always_fatal = st.always_fatal := by
  induction cs generalizing st with
  | nil => rfl
  | cons c cs ih => rw [run_callbacks_cons, ih, callback_run_always_fatal]

theorem run_callbacks_registered (cs : List Callback) (st : State W) :
    (run_callbacks cs st).sig_exit_registered = st.sig_exit_registered := by
  induction cs generalizing st with
  | nil => rfl
  | cons c cs ih => rw [run_callbacks_cons, ih, callback_run_registered]

theorem run_callbacks_quitting (cs : List Callback) (st : State W) (h : st.quitting = true) :
    (run_callbacks cs st).quitting = true := by
  induction cs generalizing st with
  | nil => exact h
  | cons c cs ih => exact ih (c.run st) (callback_run_quitting c st h)

theorem run_callbacks_sigterm (cs : List Callback) (st : State W)
    (hcs : Callback.deliver_sigterm ∉ cs) :
    (run_callbacks cs st).sigterm_received = st.sigterm_received := by
  induction cs generalizing st with
  | nil => rfl
  | cons c cs ih =>
    rw [run_callbacks_cons, ih (c.run st) (fun h => hcs (List.mem_cons_of_mem _ h)),
      callback_run_sigterm c st (fun h => hcs (h ▸ List.mem_cons_self _ _))]

theorem run_callbacks_sighup (cs : List Callback) (st : State W)
    (hcs : Callback.deliver_sighup ∉ cs) :
    (run_callbacks cs st).sighup_received = st.sighup_received := by
  induction cs generalizing st with
  | nil => rfl
  | cons c cs ih =>
    rw [run_callbacks_cons, ih (c.run st) (fun h => hcs (List.mem_cons_of_mem _ h)),
      callback_run_sighup c st (fun h => hcs (h ▸ List.mem_cons_self _ _))]

@[simp] theorem extcall_world (E : Env W) (ev : Event) (st : State W) :
    (extcall E ev st).world = (E.call ev st.world).1 := by
  unfold extcall; rw [run_callbacks_world]

@[simp] theorem extcall_always_fatal (E : Env W) (ev : Event) (st : State W) :
    (extcall E ev st).always_fatal = st.always_fatal := by
  unfold extcall; rw [run_callbacks_always_fatal]; rfl

@[simp] theorem extcall_registered (E : Env W) (ev : Event) (st : State W) :
    (extcall E ev st).sig_exit_registered = st.sig_exit_registered := by
  unfold extcall; rw [run_callbacks_registered]; rfl

theorem extcall_quitting (E : Env W) (ev : Event) (st : State W) (h : st.quitting = true) :
    (extcall E ev st).quitting = true := by
  unfold extcall; exact run_callbacks_quitting _ _ h

theorem extcall_sigterm (E : Env W) (ev : Event) (st : State W)
    (h : Callback.deliver_sigterm ∉ (E.call ev st.world).2.callbacks) :
    (extcall E ev st).sigterm_received = st.sigterm_received := by
  unfold extcall; rw [run_callbacks_sigterm _ _ h]; rfl

theorem extcall_sighup (E : Env W) (ev : Event) (st : State W)
    (h : Callback.deliver_sighup ∉ (E.call ev st.world).2.callbacks) :
    (extcall E ev st).sighup_received = st.sighup_received := by
  unfold extcall; rw [run_callbacks_sighup _ _ h]; rfl

@[simp] theorem ext_world (E : Env W) (f : Fn) (st : State W) :
    (ext E f st).world = (E.call (.call f) st.world).1 := extcall_world E _ st

@[simp] theorem ext_always_fatal (E : Env W) (f : Fn) (st : State W) :
    (ext E f st).always_fatal = st.always_fatal := extcall_always_fatal E _ st

@[simp] theorem ext_registered (E : Env W) (f : Fn) (st : State W) :
    (ext E f st).sig_exit_registered = st.sig_exit_registered := extcall_registered E _ st

theorem ext_quitting (E : Env W) (f : Fn) (st : State W) (h : st.quitting = true) :
    (ext E f st).quitting = true := extcall_quitting E _ st h

@[simp] theorem call_if_always_fatal (E : Env W) (c : State W → Bool) (ev : Event)
    (st : State W) : (call_if E c ev st).always_fatal = st.always_fatal := by
  unfold call_if; split <;> simp

@[simp] theorem call_if_freeze (E : Env W) (c : State W → Bool) (ev : Event)
    (st : State W) : (call_if E c ev st).freeze = st.freeze := by
  unfold call_if; split <;> simp

/-! ## Facts about `dirty_check` -/

/-- With `dirty` unset, `dirty_check` returns at once: nothing but the entry is logged. -/
theorem dirty_check_not_dirty (E : Env W) (st : State W) (hd : st.dirty = false) :
    dirty_check E st = log .dirty_check st := by
  simp [dirty_check, hd]

/-- On return from `dirty_check`, `dirty` is unset. -/
theorem dirty_check_clears_dirty (E : Env W) (st : State W) :
    (dirty_check E st).dirty = false := by
  cases hd : st.dirty
  · rw [dirty_check_not_dirty E st hd]; exact hd
  · simp [dirty_check, hd]

/-- The calls of a `dirty_check` entered with both flags set. -/
theorem dirty_check_trace_full (E : Env W) (st : State W)
    (hd : st.dirty = true) (hf : st.full_redraw = true) :
    (dirty_check E st).trace = st.trace ++
      [.dirty_check, .call .term_resize_dirty, .call .term_clear, .call .term_refresh,
       .call .mainwindows_redraw, .call .statusbar_redraw,
       .call .mainwindows_redraw_dirty, .call .statusbar_redraw_dirty,
       .call .term_refresh] := by
  have h1 : (ext E .term_resize_dirty (log .dirty_check st)).full_redraw = true :=
    ext_full _ _ _ hf
  simp [dirty_check, hd, h1]

/-- The calls of a `dirty_check` entered with `dirty` set: the resize hook and the
incremental pass are always there, `rest` is empty or the clear and full repaint. -/
theorem dirty_check_trace_dirty (E : Env W) (st : State W) (hd : st.dirty = true) :
    ∃ rest : List Event,
      (dirty_check E st).trace = st.trace ++ [.dirty_check, .call .term_resize_dirty] ++ rest
        ++ [.call .mainwindows_redraw_dirty, .call .statusbar_redraw_dirty,
            .call .term_refresh]
      ∧ (rest = [] ∨ rest = [.call .term_clear, .call .term_refresh,
                            .call .mainwindows_redraw, .call .statusbar_redraw]) := by
  cases h1 : (ext E .term_resize_dirty (log .dirty_check st)).full_redraw
  · exact ⟨[], by simp [dirty_check, hd, h1], Or.inl rfl⟩
  · exact ⟨_, by simp [dirty_check, hd, h1], Or.inr rfl⟩

/-- The function `dirty_check` leaves the freeze depth alone. -/
theorem dirty_check_freeze (E : Env W) (st : State W) :
    (dirty_check E st).freeze = st.freeze := by
  cases hd : st.dirty
  · rw [dirty_check_not_dirty E st hd]; rfl
  · cases h1 : (ext E .term_resize_dirty (log .dirty_check st)).full_redraw <;>
      simp [dirty_check, hd, h1]

/-- When none of the hooks called after `term_resize_dirty` calls `irssi_redraw`, a
`dirty_check` entered with `dirty` set returns with `full_redraw` unset. -/
theorem dirty_check_clears_full (E : Env W) (st : State W) (hd : st.dirty = true)
    (hE : ∀ f ∈ late_hooks, ∀ x : W,
      Callback.mark .irssi_redraw ∉ (E.call (.call f) x).2.callbacks) :
    (dirty_check E st).full_redraw = false := by
  have hx : ∀ f ∈ late_hooks, ∀ s : State W, (ext E f s).full_redraw = s.full_redraw :=
    fun f hf s => ext_full_eq E f s (hE f hf s.world)
  have c1 := hx .term_clear (by decide)
  have c2 := hx .term_refresh (by decide)
  have c3 := hx .mainwindows_redraw (by decide)
  have c4 := hx .statusbar_redraw (by decide)
  have c5 := hx .mainwindows_redraw_dirty (by decide)
  have c6 := hx .statusbar_redraw_dirty (by decide)
  cases h1 : (ext E .term_resize_dirty (log .dirty_check st)).full_redraw <;>
    simp [dirty_check, hd, h1, c1, c2, c3, c4, c5, c6]

theorem unload_modules_freeze (E : Env W) (ms : List Nat) (st : State W) :
    (unload_modules E ms st).freeze = st.freeze := by
  induction ms generalizing st with
  | nil => rfl
  | cons m ms ih => simp [unload_modules, module_unload, ih]

theorem textui_finish_init_pre_freeze (E : Env W) (st : State W) :
    (textui_finish_init_pre E st).freeze = st.freeze + 1 := by
  simp [textui_finish_init_pre, term_refresh_freeze, critical_fatal_section_begin,
    critical_fatal_section_end, g_log_set_always_fatal]

theorem textui_deinit_pre_freeze (E : Env W) (st : State W) :
    (textui_deinit_pre E st).freeze = st.freeze + 1 := by
  simp [textui_deinit_pre, term_refresh_freeze, unload_modules_freeze]

/-! ## Traces of the life-cycle functions -/

@[simp] theorem term_refresh_freeze_trace (E : Env W) (st : State W) :
    (term_refresh_freeze E st).trace = st.trace ++ [.call .term_refresh_freeze] := by
  simp [term_refresh_freeze]

@[simp] theorem term_refresh_thaw_trace (E : Env W) (st : State W) :
    (term_refresh_thaw E st).trace = st.trace ++ [.call .term_refresh_thaw] := by
  simp [term_refresh_thaw]

@[simp] theorem g_log_set_always_fatal_trace (E : Env W) (m : Nat) (st : State W) :
    (g_log_set_always_fatal E m st).1.trace = st.trace ++ [.g_log_set_always_fatal m] := by
  simp [g_log_set_always_fatal]

@[simp] theorem g_log_set_always_fatal_old (E : Env W) (m : Nat) (st : State W) :
    (g_log_set_always_fatal E m st).2 = st.always_fatal := rfl

@[simp] theorem signal_emit_trace (E : Env W) (n : SignalName) (st : State W) :
    (signal_emit E n st).trace = st.trace ++ [.signal_emit n] := by
  cases n <;> simp [signal_emit]
  split <;> simp [sig_exit]

theorem unload_modules_trace (E : Env W) (ms : List Nat) (st : State W) :
    (unload_modules E ms st).trace = st.trace ++ ms.map Event.module_unload := by
  induction ms generalizing st with
  | nil => simp [unload_modules]
  | cons m ms ih => simp [unload_modules, module_unload, ih]

theorem dirty_check_trace_cases (E : Env W) (st : State W) :
    ∃ hooks : List Event,
      (dirty_check E st).trace = st.trace ++ .dirty_check :: hooks
      ∧ (hooks = [] ∨ hooks = hooks_incremental ∨ hooks = hooks_full) := by
  cases hd : st.dirty
  · exact ⟨[], by simp [dirty_check, hd], Or.inl rfl⟩
  · cases h1 : (ext E .term_resize_dirty (log .dirty_check st)).full_redraw
    · exact ⟨hooks_incremental, by simp [dirty_check, hd, h1, hooks_incremental],
        Or.inr (Or.inl rfl)⟩
    · exact ⟨hooks_full, by simp [dirty_check, hd, h1, hooks_full], Or.inr (Or.inr rfl)⟩

theorem handle_sigterm_trace (E : Env W) (st : State W) :
    (handle_sigterm E st).trace
      = st.trace ++ (if st.sigterm_received then [.signal_emit .gui_exit] else []) := by
  unfold handle_sigterm; split <;> simp

theorem handle_sighup_trace (E : Env W) (st : State W) :
    (handle_sighup E st).trace
      = st.trace ++
        (if st.sighup_received then
          [.call .settings_get_bool_quit_on_hup,
           .signal_emit (if ext_result E .settings_get_bool_quit_on_hup st then .gui_exit
                         else .command_reload)]
         else []) := by
  unfold handle_sighup
  split
  · simp only [ext_result]
    split <;> simp
  · simp

theorem main_iteration_trace (E : Env W) (st : State W) :
    ∃ hooks : List Event,
      (main_iteration E st).trace
        = st.trace
          ++ (if st.sigterm_received then [.signal_emit .gui_exit] else [])
          ++ (if (handle_sigterm E st).sighup_received then
                [.call .settings_get_bool_quit_on_hup,
                 .signal_emit (if ext_result E .settings_get_bool_quit_on_hup
                                  (handle_sigterm E st) then .gui_exit
                               else .command_reload)]
              else [])
          ++ .dirty_check :: hooks
          ++ [.call .term_refresh_freeze, .call .g_main_context_iteration,
              .call .term_refresh_thaw]
      ∧ (hooks = [] ∨ hooks = hooks_incremental ∨ hooks = hooks_full) := by
  obtain ⟨hooks, h, hc⟩ := dirty_check_trace_cases E (handle_sighup E (handle_sigterm E st))
  refine ⟨hooks, ?_, hc⟩
  simp [main_iteration, h, handle_sighup_trace, handle_sigterm_trace]

/-! ## C1: marking without a flush -/

theorem run_marks_cons (m : Mark) (ms : List Mark) (st : State W) :
    run_marks (m :: ms) st = run_marks ms (m.run st) := rfl

theorem mark_run_dirty (m : Mark) (st : State W) : (m.run st).dirty = true := by
  cases m <;> rfl

theorem run_marks_keeps_dirty (ms : List Mark) (st : State W) (h : st.dirty = true) :
    (run_marks ms st).dirty = true := by
  induction ms generalizing st with
  | nil => exact h
  | cons m ms ih => exact ih (m.run st) (mark_run_dirty m st)

theorem run_marks_full (ms : List Mark) (st : State W) :
    (run_marks ms st).full_redraw = (st.full_redraw || decide (Mark.irssi_redraw ∈ ms)) := by
  induction ms generalizing st with
  | nil => simp [run_marks]
  | cons m ms ih =>
    rw [run_marks_cons, ih]
    cases m <;> simp [Mark.run, irssi_set_dirty, irssi_redraw]

/-- C1: from the Clean state, a non-empty sequence of `irssi_set_dirty` / `irssi_redraw`
calls with no `dirty_check` in between ends in DirtyFull (both flags true) when some
call was `irssi_redraw`, and in Dirty (`dirty` true, `full_redraw` false) otherwise. -/
theorem marks_from_clean (ms : List Mark) (st : State W) (hne : ms ≠ [])
    (hclean : level st = some .Clean) :
    level (run_marks ms st)
        = some (if Mark.irssi_redraw ∈ ms then Level.DirtyFull else Level.Dirty)
      ∧ (run_marks ms st).dirty = true
      ∧ (run_marks ms st).full_redraw = decide (Mark.irssi_redraw ∈ ms) := by
  have hf : st.full_redraw = false := by
    unfold level at hclean
    cases hd : st.dirty <;> cases hfr : st.full_redraw <;> simp_all
  have h1 : (run_marks ms st).dirty = true := by
    cases ms with
    | nil => exact absurd rfl hne
    | cons m ms => exact run_marks_keeps_dirty ms _ (mark_run_dirty m st)
  have h2 : (run_marks ms st).full_redraw = decide (Mark.irssi_redraw ∈ ms) := by
    rw [run_marks_full, hf]; simp
  refine ⟨?_, h1, h2⟩
  unfold level
  rw [h1, h2]
  by_cases hm : Mark.irssi_redraw ∈ ms <;> simp [hm]

/-- C1 at the sequence set_dirty, redraw, set_dirty from the start state. -/
theorem marks_from_clean_witness :
    level (run_marks [Mark.irssi_set_dirty, .irssi_redraw, .irssi_set_dirty] State.start)
      = some Level.DirtyFull :=
  (marks_from_clean [Mark.irssi_set_dirty, .irssi_redraw, .irssi_set_dirty] State.start
    (by decide) (by decide)).1

/-! ## C2: the flush from DirtyFull -/

/-- C2: a `dirty_check` entered with `dirty` and `full_redraw` both set calls, in this
order, `term_resize_dirty`, `term_clear`, (`term_refresh`,) `mainwindows_redraw`,
`statusbar_redraw(NULL, TRUE)`, `mainwindows_redraw_dirty`, `statusbar_redraw_dirty`
(and a final `term_refresh`), whatever the hooks call back; each of the resize, clear,
full-repaint and incremental-repaint calls occurs exactly once. -/
theorem dirty_check_from_dirty_full (E : Env W) (st : State W)
    (hd : st.dirty = true) (hf : st.full_redraw = true) :
    new_events st (dirty_check E st)
        = [.dirty_check, .call .term_resize_dirty, .call .term_clear, .call .term_refresh,
           .call .mainwindows_redraw, .call .statusbar_redraw,
           .call .mainwindows_redraw_dirty, .call .statusbar_redraw_dirty,
           .call .term_refresh]
      ∧ (new_events st (dirty_check E st)).filter (fun e => e != .call .term_refresh)
        = [.dirty_check, .call .term_resize_dirty, .call .term_clear,
           .call .mainwindows_redraw, .call .statusbar_redraw,
           .call .mainwindows_redraw_dirty, .call .statusbar_redraw_dirty]
      ∧ ∀ f ∈ [Fn.term_resize_dirty, .term_clear, .mainwindows_redraw, .statusbar_redraw,
               .mainwindows_redraw_dirty, .statusbar_redraw_dirty],
          (new_events st (dirty_check E st)).count (.call f) = 1 := by
  rw [new_events_of_append (dirty_check_trace_full E st hd hf)]
  refine ⟨rfl, by decide, by decide⟩

/-- C2 in the DirtyFull start state of a quiet world. -/
theorem dirty_check_from_dirty_full_witness :
    new_events State.dirty_full (dirty_check Env.quiet State.dirty_full)
      = [.dirty_check, .call .term_resize_dirty, .call .term_clear, .call .term_refresh,
         .call .mainwindows_redraw, .call .statusbar_redraw,
         .call .mainwindows_redraw_dirty, .call .statusbar_redraw_dirty,
         .call .term_refresh] :=
  (dirty_check_from_dirty_full Env.quiet State.dirty_full rfl rfl).1

/-! ## C3: the flush and the freeze depth -/

/-- C3 as stated fails: at freeze depth 1 in the Dirty state, `dirty_check` in a quiet
world calls the resize and incremental-repaint hooks and changes `dirty` from true to
false. -/
theorem dirty_check_frozen_counterexample :
    0 < State.dirty_frozen.freeze
      ∧ State.dirty_frozen.dirty = true
      ∧ (dirty_check Env.quiet State.dirty_frozen).dirty = false
      ∧ new_events State.dirty_frozen (dirty_check Env.quiet State.dirty_frozen)
        = [.dirty_check, .call .term_resize_dirty, .call .mainwindows_redraw_dirty,
           .call .statusbar_redraw_dirty, .call .term_refresh] := by
  decide

/-- C3, amended: `dirty_check` does not look at the freeze depth.  At every depth > 0,
entered with `dirty` unset it calls nothing and changes nothing (only its entry is
logged); entered with `dirty` set it does not defer: it calls `term_resize_dirty`, the
incremental repaint hooks and `term_refresh` (and the clear and full repaint when
`full_redraw` is set) and returns with `dirty` unset, the depth unchanged.  The
`dirty_check` calls of `textui_finish_init` and `textui_deinit` are made at depth > 0
and return with `dirty` unset. -/
theorem dirty_check_while_frozen (E : Env W) (st : State W) (hfz : 0 < st.freeze) :
    (st.dirty = false → dirty_check E st = log .dirty_check st)
      ∧ (st.dirty = true →
          (dirty_check E st).dirty = false
          ∧ Event.call .term_resize_dirty ∈ new_events st (dirty_check E st)
          ∧ Event.call .mainwindows_redraw_dirty ∈ new_events st (dirty_check E st)
          ∧ Event.call .statusbar_redraw_dirty ∈ new_events st (dirty_check E st)
          ∧ Event.call .term_refresh ∈ new_events st (dirty_check E st))
      ∧ (st.dirty = true → st.full_redraw = true →
          Event.call .term_clear ∈ new_events st (dirty_check E st)
          ∧ Event.call .mainwindows_redraw ∈ new_events st (dirty_check E st)
          ∧ Event.call .statusbar_redraw ∈ new_events st (dirty_check E st))
      ∧ (dirty_check E st).freeze = st.freeze
      ∧ (∀ s : State W, 0 < (textui_finish_init_pre E s).freeze
          ∧ (dirty_check E (textui_finish_init_pre E s)).dirty = false)
      ∧ (∀ s : State W, 0 < (textui_deinit_pre E s).freeze
          ∧ (dirty_check E (textui_deinit_pre E s)).dirty = false) := by
  have _ := hfz
  refine ⟨dirty_check_not_dirty E st, ?_, ?_, dirty_check_freeze E st, ?_, ?_⟩
  · intro hd
    obtain ⟨rest, htr, _⟩ := dirty_check_trace_dirty E st hd
    rw [new_events_of_append (by simpa [List.append_assoc] using htr)]
    exact ⟨dirty_check_clears_dirty E st, by simp, by simp, by simp, by simp⟩
  · intro hd hf
    rw [new_events_of_append (dirty_check_trace_full E st hd hf)]
    exact ⟨by decide, by decide, by decide⟩
  · intro s
    exact ⟨by rw [textui_finish_init_pre_freeze]; omega, dirty_check_clears_dirty E _⟩
  · intro s
    exact ⟨by rw [textui_deinit_pre_freeze]; omega, dirty_check_clears_dirty E _⟩

/-- C3, amended, in the Dirty state at freeze depth 1 of a quiet world. -/
theorem dirty_check_while_frozen_witness :
    (dirty_check Env.quiet State.dirty_frozen).dirty = false
      ∧ Event.call .term_resize_dirty
          ∈ new_events State.dirty_frozen (dirty_check Env.quiet State.dirty_frozen) :=
  have h := (dirty_check_while_frozen Env.quiet State.dirty_frozen (by decide)).2.1 rfl
  ⟨h.1, h.2.1⟩

/-! ## C4: the invariant `full_redraw → dirty` -/

/-- C4 as stated fails: when `statusbar_redraw_dirty` calls `irssi_redraw`, a
`dirty_check` entered in the Dirty state (where the invariant holds) returns with
`full_redraw` set and `dirty` unset. -/
theorem inv_dirty_check_counterexample :
    Inv State.dirty_only
      ∧ (dirty_check Env.remarking State.dirty_only).full_redraw = true
      ∧ (dirty_check Env.remarking State.dirty_only).dirty = false
      ∧ ¬ Inv (dirty_check Env.remarking State.dirty_only) := by
  unfold Inv
  decide

/-- C4, amended: `full_redraw → dirty` holds in the initial state and is preserved by
`irssi_set_dirty`, by `irssi_redraw`, and by `dirty_check` when none of the hooks it
calls after `term_resize_dirty` (`term_clear`, `term_refresh`, `mainwindows_redraw`,
`statusbar_redraw`, `mainwindows_redraw_dirty`, `statusbar_redraw_dirty`) calls
`irssi_redraw`; these hooks may call `irssi_set_dirty`, and `term_resize_dirty` and all
code outside `dirty_check` may call either function. -/
theorem inv_preserved (E : Env W) (st : State W) (w : W) (fatal : Nat) (ms : List Nat) :
    Inv (State.initial w fatal ms)
      ∧ (Inv st → Inv (irssi_set_dirty st))
      ∧ (Inv st → Inv (irssi_redraw st))
      ∧ (Inv st →
          (∀ f ∈ late_hooks, ∀ x : W,
            Callback.mark .irssi_redraw ∉ (E.call (.call f) x).2.callbacks) →
          Inv (dirty_check E st)) := by
  refine ⟨fun h => (by cases h), fun _ _ => rfl, fun _ _ => rfl, ?_⟩
  intro hinv hE
  cases hd : st.dirty
  · rw [dirty_check_not_dirty E st hd]
    intro hf
    exact absurd (hinv hf) (by simp [hd])
  · intro hf
    rw [dirty_check_clears_full E st hd hE] at hf
    cases hf

/-- C4, amended, from the Dirty state in a world where `term_resize_dirty` calls
`irssi_redraw` and the later hooks do not. -/
theorem inv_preserved_witness :
    Inv State.dirty_only ∧ Inv (dirty_check Env.resizing State.dirty_only) :=
  ⟨fun h => (by cases h),
   (inv_preserved Env.resizing State.dirty_only () G_LOG_FATAL_MASK []).2.2.2
    (fun h => (by cases h)) (by decide)⟩

/-! ## C5 and C6: the seccomp policy -/

theorem fits_named (r : Rule) (s : Syscall) (args : Fin 6 → Nat) :
    r.fits ⟨.named s, args⟩ = true ↔ r.syscall = s ∧ ∀ c ∈ r.cmps, args c.arg = c.datum := by
  unfold Rule.fits ArgCmp.holds
  rw [Bool.and_eq_true, beq_iff_eq, List.all_eq_true, Sysno.named.injEq]
  constructor
  · rintro ⟨h1, h2⟩
    exact ⟨h1.symm, fun c hc => by simpa using h2 c hc⟩
  · rintro ⟨h1, h2⟩
    exact ⟨h1.symm, fun c hc => by simpa using h2 c hc⟩

/-- Only a request for a named system call fits a rule. -/
theorem fits_not_named (r : Rule) (q : Request) (h : ∀ s, q.nr ≠ .named s) :
    r.fits q = false := by
  unfold Rule.fits
  rw [Bool.and_eq_false_iff]
  left
  rw [beq_eq_false_iff_ne]
  exact h r.syscall

/-- The decision on a native request is taken by the rules. -/
theorem eval_native (p : Policy) (q : Request) (hn : q.nr.is_native = true) :
    p.eval q = match p.rules.find? (fun r => r.fits q) with
      | some r => r.action
      | none => p.def_action := by
  unfold Policy.eval
  cases hq : q.nr with
  | named s => rfl
  | unnamed => rfl
  | foreign nr => rw [hq] at hn; cases hn

/-- The decision on a foreign request is the bad-architecture action. -/
theorem eval_foreign (p : Policy) (nr : Nat) (args : Fin 6 → Nat) :
    p.eval ⟨.foreign nr, args⟩ = p.badarch_action := rfl

theorem eval_of_no_fit (p : Policy) (q : Request) (hn : q.nr.is_native = true)
    (h : ∀ r ∈ p.rules, r.fits q = false) : p.eval q = p.def_action := by
  have : p.rules.find? (fun r => r.fits q) = none := by
    rw [List.find?_eq_none]; intro r hr; simp [h r hr]
  rw [eval_native p q hn, this]

theorem eval_of_fit (p : Policy) (q : Request) (hall : ∀ r ∈ p.rules, r.action = .ALLOW)
    (h : ∃ r ∈ p.rules, r.fits q = true) : p.eval q = .ALLOW := by
  obtain ⟨r, hr, hfit⟩ := h
  have hn : q.nr.is_native = true := by
    cases hq : q.nr with
    | named s => rfl
    | unnamed => rfl
    | foreign nr =>
      rw [fits_not_named r q (fun s hs => by rw [hq] at hs; cases hs)] at hfit
      cases hfit
  rw [eval_native p q hn]
  cases hfind : p.rules.find? (fun r => r.fits q) with
  | none =>
    rw [List.find?_eq_none] at hfind
    exact absurd hfit (by simpa using hfind r hr)
  | some r' => exact hall r' (List.mem_of_find?_eq_some hfind)

theorem ifdef_allow (flag : Bool) (s : Syscall) : ∀ r ∈ ifdef flag (allow s), r.action = .ALLOW := by
  cases flag <;> simp [ifdef, allow]

theorem ifdef_ioctl_allow (o : Option Nat) : ∀ r ∈ ifdef_ioctl o, r.action = .ALLOW := by
  cases o <;> simp [ifdef_ioctl, allow_A1_EQ]

theorem sandbox_rules_allow (B : Build) : ∀ r ∈ sandbox_rules B, r.action = .ALLOW := by
  have h1 : ∀ r ∈ rules_accept_to_clone, r.action = .ALLOW := by decide
  have h2 : ∀ r ∈ rules_close_to_restart_syscall, r.action = .ALLOW := by decide
  have h3 : ∀ r ∈ rules_rt_sigaction_to_writev, r.action = .ALLOW := by decide
  have h4 : ∀ r ∈ rules_kill_ioctl B, r.action = .ALLOW := by
    simp [rules_kill_ioctl, allow_A1_EQ]
  intro r hr
  simp only [sandbox_rules, List.mem_append] at hr
  rcases hr with ((((((((h | h) | h) | h) | h) | h) | h) | h) | h) | h
  · exact h1 r h
  · exact ifdef_allow _ _ r h
  · exact h2 r h
  · exact ifdef_allow _ _ r h
  · exact h3 r h
  · exact ifdef_allow _ _ r h
  · exact h4 r h
  · exact ifdef_ioctl_allow _ r h
  · exact ifdef_ioctl_allow _ r h
  · exact ifdef_ioctl_allow _ r h

theorem ifdef_filter (flag : Bool) (s t : Syscall) (h : s ≠ t) :
    (ifdef flag (allow s)).filter (fun r => r.syscall == t) = [] := by
  cases flag <;> simp [ifdef, allow, h]

theorem ifdef_ioctl_filter_kill (o : Option Nat) :
    (ifdef_ioctl o).filter (fun r => r.syscall == Syscall.kill) = [] := by
  cases o <;> simp [ifdef_ioctl, allow_A1_EQ]

theorem rules_for_kill (B : Build) :
    (sandbox_policy B).rules_for .kill = [allow_A1_EQ .kill B.SIGTSTP] := by
  have h1 : rules_accept_to_clone.filter (fun r => r.syscall == Syscall.kill) = [] := by decide
  have h2 : rules_close_to_restart_syscall.filter (fun r => r.syscall == Syscall.kill) = [] := by
    decide
  have h3 : rules_rt_sigaction_to_writev.filter (fun r => r.syscall == Syscall.kill) = [] := by
    decide
  have h4 : (rules_kill_ioctl B).filter (fun r => r.syscall == Syscall.kill)
      = [allow_A1_EQ .kill B.SIGTSTP] := by
    simp [rules_kill_ioctl, allow_A1_EQ]
  simp only [sandbox_policy, sandbox_rules, Policy.rules_for, List.filter_append, h1, h2, h3, h4,
    ifdef_filter _ _ _ (by decide : Syscall.clone3 ≠ .kill),
    ifdef_filter _ _ _ (by decide : Syscall.rseq ≠ .kill),
    ifdef_filter _ _ _ (by decide : Syscall.epoll_pwait2 ≠ .kill), ifdef_ioctl_filter_kill,
    List.append_nil, List.nil_append]

theorem exists_fit_iff (p : Policy) (s : Syscall) (args : Fin 6 → Nat) :
    (∃ r ∈ p.rules, r.fits ⟨.named s, args⟩ = true)
      ↔ ∃ r ∈ p.rules_for s, ∀ c ∈ r.cmps, args c.arg = c.datum := by
  unfold Policy.rules_for
  constructor
  · rintro ⟨r, hr, hfit⟩
    rw [fits_named] at hfit
    exact ⟨r, List.mem_filter.mpr ⟨hr, by simp [hfit.1]⟩, hfit.2⟩
  · rintro ⟨r, hr, hc⟩
    rw [List.mem_filter] at hr
    exact ⟨r, hr.1, (fits_named r s args).mpr ⟨by simpa using hr.2, hc⟩⟩

theorem eval_allow_iff (B : Build) (q : Request) :
    (sandbox_policy B).eval q = .ALLOW ↔ ∃ r ∈ (sandbox_policy B).rules, r.fits q = true := by
  constructor
  · intro h
    by_contra hne
    have hno : ∀ r ∈ (sandbox_policy B).rules, r.fits q = false := by
      intro r hr
      cases hfit : r.fits q
      · rfl
      · exact absurd ⟨r, hr, hfit⟩ hne
    cases hn : q.nr.is_native
    · obtain ⟨nr, args⟩ := q
      cases nr with
      | named s => cases hn
      | unnamed => cases hn
      | foreign k => rw [eval_foreign] at h; cases h
    · rw [eval_of_no_fit _ _ hn hno] at h
      cases h
  · exact eval_of_fit _ _ (sandbox_rules_allow B)

theorem eval_deny_of_not_allow (B : Build) (q : Request) (hn : q.nr.is_native = true)
    (h : (sandbox_policy B).eval q ≠ .ALLOW) : (sandbox_policy B).eval q = .ERRNO B.EPERM := by
  have hno : ∀ r ∈ (sandbox_policy B).rules, r.fits q = false := by
    intro r hr
    cases hfit : r.fits q
    · rfl
    · exact absurd ((eval_allow_iff B q).mpr ⟨r, hr, hfit⟩) h
  exact eval_of_no_fit _ _ hn hno

/-- C5 as stated fails: `getpid()` made through the x32 ABI fits no rule of the policy
built for Linux x86-64, and the decision on it is not the default action
`SCMP_ACT_ERRNO(EPERM)` but the bad-architecture action `SCMP_ACT_KILL`, which `main`
leaves as `seccomp_init` set it. -/
theorem foreign_abi_counterexample :
    (∀ r ∈ (sandbox_policy Build.linux_x86_64).rules, r.fits Request.x32_getpid = false)
      ∧ (sandbox_policy Build.linux_x86_64).eval Request.x32_getpid = .KILL_THREAD
      ∧ (sandbox_policy Build.linux_x86_64).eval Request.x32_getpid
          ≠ (sandbox_policy Build.linux_x86_64).def_action
      ∧ (sandbox_policy Build.linux_x86_64).def_action = .ERRNO 1 := by
  decide

/-- C5, amended: in the policy built by `main`, for calls made through the native ABI,
a `kill` is allowed exactly when its signal argument (argument 1) is `SIGTSTP`; a `kill`
with any other signal, and every native request that fits no rule (among them every
system call `main` does not name), gets the default action, which is
`SCMP_ACT_ERRNO(EPERM)` and neither `SCMP_ACT_KILL_PROCESS` nor `SCMP_ACT_KILL`; so the
decision on a native request is always allow or `ERRNO(EPERM)`. -/
theorem kill_only_SIGTSTP (B : Build) (args : Fin 6 → Nat) :
    ((sandbox_policy B).eval ⟨.named .kill, args⟩ = .ALLOW ↔ args 1 = B.SIGTSTP)
      ∧ (args 1 ≠ B.SIGTSTP →
          (sandbox_policy B).eval ⟨.named .kill, args⟩ = .ERRNO B.EPERM)
      ∧ (∀ q : Request, q.nr.is_native = true →
          (∀ r ∈ (sandbox_policy B).rules, r.fits q = false) →
          (sandbox_policy B).eval q = .ERRNO B.EPERM)
      ∧ (∀ a : Fin 6 → Nat, (sandbox_policy B).eval ⟨.unnamed, a⟩ = .ERRNO B.EPERM)
      ∧ (∀ q : Request, q.nr.is_native = true →
          (sandbox_policy B).eval q = .ALLOW ∨ (sandbox_policy B).eval q = .ERRNO B.EPERM)
      ∧ (sandbox_policy B).def_action = .ERRNO B.EPERM
      ∧ (sandbox_policy B).def_action ≠ .KILL_PROCESS
      ∧ (sandbox_policy B).def_action ≠ .KILL_THREAD := by
  have hiff : (sandbox_policy B).eval ⟨.named .kill, args⟩ = .ALLOW ↔ args 1 = B.SIGTSTP := by
    rw [eval_allow_iff, exists_fit_iff, rules_for_kill]
    simp [allow_A1_EQ]
  refine ⟨hiff, ?_, fun q hn => eval_of_no_fit _ q hn, ?_, ?_, rfl, ?_, ?_⟩
  · intro hne
    exact eval_deny_of_not_allow B _ rfl (fun h => hne (hiff.mp h))
  · intro a
    exact eval_of_no_fit _ _ rfl
      (fun r _ => fits_not_named r _ (fun s hs => (by cases hs)))
  · intro q hn
    by_cases h : (sandbox_policy B).eval q = .ALLOW
    · exact Or.inl h
    · exact Or.inr (eval_deny_of_not_allow B q hn h)
  · intro h
    cases h
  · intro h
    cases h

/-- C5, amended, on Linux x86-64 at `kill(pid, SIGKILL)`: denied with `EPERM`. -/
theorem kill_only_SIGTSTP_witness :
    (sandbox_policy Build.linux_x86_64).eval (Request.with_A1 .kill 9) = .ERRNO 1 :=
  (kill_only_SIGTSTP Build.linux_x86_64 (fun i => if i = 1 then 9 else 0)).2.1 (by decide)

theorem signal_emit_quitting (E : Env W) (n : SignalName) (st : State W)
    (h : st.quitting = true) : (signal_emit E n st).quitting = true := by
  have h1 := extcall_quitting E (.signal_emit n) st h
  cases n <;> simp only [signal_emit] <;> try exact h1
  split <;> simp [sig_exit, h1]

theorem signal_emit_gui_exit_quitting (E : Env W) (st : State W)
    (hreg : st.sig_exit_registered = true) :
    (signal_emit E .gui_exit st).quitting = true := by
  simp [signal_emit, hreg, sig_exit]

@[simp] theorem signal_emit_registered (E : Env W) (n : SignalName) (st : State W) :
    (signal_emit E n st).sig_exit_registered = st.sig_exit_registered := by
  cases n <;> simp [signal_emit]
  split <;> simp [sig_exit]

@[simp] theorem signal_emit_freeze (E : Env W) (n : SignalName) (st : State W) :
    (signal_emit E n st).freeze = st.freeze := by
  cases n <;> simp [signal_emit]
  split <;> simp [sig_exit]

theorem signal_emit_sigterm (E : Env W) (n : SignalName) (st : State W)
    (h : Callback.deliver_sigterm ∉ (E.call (.signal_emit n) st.world).2.callbacks) :
    (signal_emit E n st).sigterm_received = st.sigterm_received := by
  have h1 := extcall_sigterm E (.signal_emit n) st h
  cases n <;> simp only [signal_emit] <;> try exact h1
  split <;> simp [sig_exit, h1]

theorem signal_emit_sighup (E : Env W) (n : SignalName) (st : State W)
    (h : Callback.deliver_sighup ∉ (E.call (.signal_emit n) st.world).2.callbacks) :
    (signal_emit E n st).sighup_received = st.sighup_received := by
  have h1 := extcall_sighup E (.signal_emit n) st h
  cases n <;> simp only [signal_emit] <;> try exact h1
  split <;> simp [sig_exit, h1]

theorem handle_sigterm_quitting (E : Env W) (st : State W) (h : st.quitting = true) :
    (handle_sigterm E st).quitting = true := by
  unfold handle_sigterm
  split
  · exact signal_emit_quitting E _ _ h
  · exact h

@[simp] theorem handle_sigterm_registered (E : Env W) (st : State W) :
    (handle_sigterm E st).sig_exit_registered = st.sig_exit_registered := by
  unfold handle_sigterm; split <;> simp

@[simp] theorem handle_sigterm_freeze (E : Env W) (st : State W) :
    (handle_sigterm E st).freeze = st.freeze := by
  unfold handle_sigterm; split <;> simp

theorem handle_sighup_quitting (E : Env W) (st : State W) (h : st.quitting = true) :
    (handle_sighup E st).quitting = true := by
  unfold handle_sighup
  split
  · have h1 : (ext E .settings_get_bool_quit_on_hup { st with sighup_received := false }).quitting
        = true := ext_quitting E _ _ h
    dsimp only
    split
    · exact signal_emit_quitting E _ _ h1
    · exact signal_emit_quitting E _ _ h1
  · exact h

@[simp] theorem handle_sighup_freeze (E : Env W) (st : State W) :
    (handle_sighup E st).freeze = st.freeze := by
  unfold handle_sighup
  split
  · dsimp only; split <;> simp
  · rfl

theorem dirty_check_quitting (E : Env W) (st : State W) (h : st.quitting = true) :
    (dirty_check E st).quitting = true := by
  have e := fun (f : Fn) (s : State W) (hs : s.quitting = true) => ext_quitting E f s hs
  cases hd : st.dirty
  · rw [dirty_check_not_dirty E st hd]; exact h
  · have h0 : (ext E .term_resize_dirty (log .dirty_check st)).quitting = true := e _ _ h
    cases h1 : (ext E .term_resize_dirty (log .dirty_check st)).full_redraw
    · simp only [dirty_check, log_dirty, hd, h1]
      exact e _ _ (e _ _ (e _ _ h0))
    · simp only [dirty_check, log_dirty, hd, h1]
      exact e _ _ (e _ _ (e _ _ (e _ _ (e _ _ (e _ _ (e _ _ h0))))))

theorem main_iteration_quitting (E : Env W) (st : State W)
    (h : (handle_sighup E (handle_sigterm E st)).quitting = true) :
    (main_iteration E st).quitting = true := by
  unfold main_iteration term_refresh_thaw term_refresh_freeze
  exact ext_quitting E _ _ (ext_quitting E _ _ (ext_quitting E _ _ (dirty_check_quitting E _ h)))

theorem main_iteration_freeze (E : Env W) (st : State W) :
    (main_iteration E st).freeze = st.freeze := by
  simp [main_iteration, term_refresh_thaw, term_refresh_freeze, dirty_check_freeze]

theorem main_loop_quitting (E : Env W) (fuel : Nat) (st : State W) (h : st.quitting = true) :
    main_loop E fuel st = some st := by
  cases fuel <;> simp [main_loop, h]


theorem handle_sigterm_pending (E : Env W) (st : State W) (hp : st.sigterm_received = true) :
    handle_sigterm E st = signal_emit E .gui_exit { st with sigterm_received := false } := by
  simp [handle_sigterm, hp]

theorem handle_sigterm_idle (E : Env W) (st : State W) (hp : st.sigterm_received = false) :
    handle_sigterm E st = st := by
  simp [handle_sigterm, hp]

theorem handle_sighup_pending (E : Env W) (st : State W) (hp : st.sighup_received = true) :
    handle_sighup E st
      = signal_emit E
          (if ext_result E .settings_get_bool_quit_on_hup st then .gui_exit else .command_reload)
          (ext E .settings_get_bool_quit_on_hup { st with sighup_received := false }) := by
  unfold handle_sighup
  rw [if_pos hp]
  show (if ext_result E .settings_get_bool_quit_on_hup st = true then _ else _) = _
  split <;> rfl

theorem handle_sighup_idle (E : Env W) (st : State W) (hp : st.sighup_received = false) :
    handle_sighup E st = st := by
  simp [handle_sighup, hp]

/-- A "gui exit" emitted by an iteration leaves `quitting` set at its end. -/
theorem main_iteration_exit (E : Env W) (st : State W) (hreg : st.sig_exit_registered = true)
    (hmem : Event.signal_emit .gui_exit ∈ new_events st (main_iteration E st)) :
    (main_iteration E st).quitting = true := by
  obtain ⟨hooks, h, hc⟩ := main_iteration_trace E st
  rw [new_events_of_append (by simpa [List.append_assoc] using h)] at hmem
  apply main_iteration_quitting
  cases ha : st.sigterm_received
  · cases hb : (handle_sigterm E st).sighup_received
    · exfalso
      rcases hc with rfl | rfl | rfl <;>
        simp [ha, hb, hooks_incremental, hooks_full] at hmem
    · cases hq : ext_result E .settings_get_bool_quit_on_hup (handle_sigterm E st)
      · exfalso
        rcases hc with rfl | rfl | rfl <;>
          simp [ha, hb, hq, hooks_incremental, hooks_full] at hmem
      · rw [handle_sighup_pending E _ hb, hq]
        exact signal_emit_gui_exit_quitting E _ (by simpa using hreg)
  · apply handle_sighup_quitting
    rw [handle_sigterm_pending E st ha]
    exact signal_emit_gui_exit_quitting E _ hreg

/-! ## C7 and C8: the event loop -/

/-- C7: the calls of one iteration of the event loop are, in this order: the
notifications of the flag handling (only "gui exit" / "command reload" emissions and the
`quit_on_hup` lookup), one entry into `dirty_check` with its hooks, then
`term_refresh_freeze`, the blocking `g_main_context_iteration`, `term_refresh_thaw`.
`dirty_check` is entered exactly once and the blocking wait made exactly once; a
terminate flag set at the start of the iteration gives "gui exit" as the very first
call, before the wait; the freeze depth is the same after as before. -/
theorem main_iteration_order (E : Env W) (st : State W) :
    ∃ flags hooks : List Event,
      new_events st (main_iteration E st)
          = flags ++ [.dirty_check] ++ hooks
            ++ [.call .term_refresh_freeze, .call .g_main_context_iteration,
                .call .term_refresh_thaw]
        ∧ (∀ e ∈ flags, e = .signal_emit .gui_exit ∨ e = .signal_emit .command_reload
            ∨ e = .call .settings_get_bool_quit_on_hup)
        ∧ (∀ e ∈ hooks, e.is_hook = true)
        ∧ (new_events st (main_iteration E st)).count .dirty_check = 1
        ∧ (new_events st (main_iteration E st)).count (.call .g_main_context_iteration) = 1
        ∧ (st.sigterm_received = true → flags.head? = some (.signal_emit .gui_exit))
        ∧ (main_iteration E st).freeze = st.freeze := by
  obtain ⟨hooks, h, hc⟩ := main_iteration_trace E st
  have hn := new_events_of_append
    (l := ((if st.sigterm_received then [Event.signal_emit .gui_exit] else [])
          ++ (if (handle_sigterm E st).sighup_received then
                [.call .settings_get_bool_quit_on_hup,
                 .signal_emit (if ext_result E .settings_get_bool_quit_on_hup
                                  (handle_sigterm E st) then .gui_exit
                               else .command_reload)]
              else []))
          ++ [.dirty_check] ++ hooks
          ++ [.call .term_refresh_freeze, .call .g_main_context_iteration,
              .call .term_refresh_thaw]) (by simpa [List.append_assoc] using h)
  refine ⟨_, hooks, hn, ?_⟩
  rw [hn]
  refine ⟨?_, ?_, ?_, ?_, ?_, main_iteration_freeze E st⟩
  all_goals
    generalize (handle_sigterm E st).sighup_received = b
    generalize ext_result E .settings_get_bool_quit_on_hup (handle_sigterm E st) = q
    generalize st.sigterm_received = a
    rcases hc with rfl | rfl | rfl <;> cases a <;> cases b <;> cases q <;> decide

/-- C7 in the start state with a SIGTERM pending, in a quiet world: the iteration
begins with the "gui exit" emission and then flushes, freezes, waits and thaws. -/
theorem main_iteration_order_witness :
    ∃ flags hooks : List Event,
      new_events State.sigterm_pending (main_iteration Env.quiet State.sigterm_pending)
          = flags ++ [.dirty_check] ++ hooks
            ++ [.call .term_refresh_freeze, .call .g_main_context_iteration,
                .call .term_refresh_thaw]
        ∧ flags.head? = some (.signal_emit .gui_exit) :=
  let ⟨flags, hooks, h1, _, _, _, _, h6, _⟩ :=
    main_iteration_order Env.quiet State.sigterm_pending
  ⟨flags, hooks, h1, h6 rfl⟩

/-- C8: with `sig_exit` connected (as it is throughout the event loop), a pending
terminate flag is cleared and gives exactly one "gui exit" emission, which sets
`quitting`; a pending hangup flag is cleared and gives exactly the `quit_on_hup` lookup
and one emission, "gui exit" when the setting is true (setting `quitting`) and "command
reload" when it is false; a flag is set again afterwards only if a new signal was
delivered during these calls; with no flag pending the handling does nothing and the
iteration emits no signal; and an iteration that emitted "gui exit" ends with `quitting`
set, so that the loop returns without another iteration. -/
theorem signal_flags_handled (E : Env W) (st : State W)
    (hreg : st.sig_exit_registered = true) :
    (st.sigterm_received = true →
        new_events st (handle_sigterm E st) = [.signal_emit .gui_exit]
        ∧ (handle_sigterm E st).quitting = true
        ∧ ((handle_sigterm E st).sigterm_received = true →
            Callback.deliver_sigterm
              ∈ (E.call (.signal_emit .gui_exit) st.world).2.callbacks))
      ∧ (st.sigterm_received = false → handle_sigterm E st = st)
      ∧ (st.sighup_received = true →
          new_events st (handle_sighup E st)
            = [.call .settings_get_bool_quit_on_hup,
               .signal_emit (if ext_result E .settings_get_bool_quit_on_hup st then .gui_exit
                             else .command_reload)]
          ∧ (ext_result E .settings_get_bool_quit_on_hup st = true →
              (handle_sighup E st).quitting = true)
          ∧ ((handle_sighup E st).sighup_received = true →
              Callback.deliver_sighup
                  ∈ (E.call (.call .settings_get_bool_quit_on_hup) st.world).2.callbacks
              ∨ ∃ n, Callback.deliver_sighup
                  ∈ (E.call (.signal_emit n)
                      (E.call (.call .settings_get_bool_quit_on_hup) st.world).1).2.callbacks))
      ∧ (st.sighup_received = false → handle_sighup E st = st)
      ∧ (st.sigterm_received = false → st.sighup_received = false →
          ∀ n, Event.signal_emit n ∉ new_events st (main_iteration E st))
      ∧ (Event.signal_emit .gui_exit ∈ new_events st (main_iteration E st) →
          (main_iteration E st).quitting = true
          ∧ ∀ fuel, main_loop E fuel (main_iteration E st) = some (main_iteration E st)) := by
  refine ⟨?_, handle_sigterm_idle E st, ?_, handle_sighup_idle E st, ?_, ?_⟩
  · intro hp
    refine ⟨?_, ?_, ?_⟩
    · exact new_events_of_append (by simp [handle_sigterm_trace, hp])
    · rw [handle_sigterm_pending E st hp]
      exact signal_emit_gui_exit_quitting E _ hreg
    · intro hset
      by_contra hno
      have h1 := signal_emit_sigterm E .gui_exit { st with sigterm_received := false } hno
      rw [handle_sigterm_pending E st hp, h1] at hset
      cases hset
  · intro hp
    refine ⟨?_, ?_, ?_⟩
    · exact new_events_of_append (by simp [handle_sighup_trace, hp])
    · intro hq
      rw [handle_sighup_pending E st hp, hq]
      exact signal_emit_gui_exit_quitting E _ (by simpa using hreg)
    · intro hset
      by_contra hno
      rw [not_or, not_exists] at hno
      have h1 := extcall_sighup E (.call .settings_get_bool_quit_on_hup)
        { st with sighup_received := false } hno.1
      rw [handle_sighup_pending E st hp, signal_emit_sighup E _ _ (by simpa using hno.2 _)]
        at hset
      unfold ext at hset
      rw [h1] at hset
      cases hset
  · intro ha hb n
    obtain ⟨hooks, h, hc⟩ := main_iteration_trace E st
    rw [handle_sigterm_idle E st ha, ha, hb] at h
    rw [new_events_of_append (by simpa [List.append_assoc] using h)]
    rcases hc with rfl | rfl | rfl <;> cases n <;> decide
  · intro hmem
    have hq := main_iteration_exit E st hreg hmem
    exact ⟨hq, fun fuel => main_loop_quitting E fuel _ hq⟩

/-- C8 in the start state with `sig_exit` connected and a SIGTERM pending, in a quiet
world: one "gui exit" emission. -/
theorem signal_flags_handled_witness :
    new_events State.sigterm_pending (handle_sigterm Env.quiet State.sigterm_pending)
      = [.signal_emit .gui_exit] :=
  ((signal_flags_handled Env.quiet State.sigterm_pending rfl).1 rfl).1

/-! ## Facts about initialisation and teardown -/

@[simp] theorem log_always_fatal (ev : Event) (st : State W) :
    (log ev st).always_fatal = st.always_fatal := rfl

@[simp] theorem g_log_set_always_fatal_new (E : Env W) (m : Nat) (st : State W) :
    (g_log_set_always_fatal E m st).1.always_fatal = m := by
  simp [g_log_set_always_fatal]

@[simp] theorem term_refresh_freeze_always_fatal (E : Env W) (st : State W) :
    (term_refresh_freeze E st).always_fatal = st.always_fatal := by
  simp [term_refresh_freeze]

@[simp] theorem term_refresh_thaw_always_fatal (E : Env W) (st : State W) :
    (term_refresh_thaw E st).always_fatal = st.always_fatal := by
  simp [term_refresh_thaw]

@[simp] theorem signal_emit_always_fatal (E : Env W) (n : SignalName) (st : State W) :
    (signal_emit E n st).always_fatal = st.always_fatal := by
  cases n <;> simp [signal_emit]
  split <;> simp [sig_exit]

@[simp] theorem dirty_check_always_fatal (E : Env W) (st : State W) :
    (dirty_check E st).always_fatal = st.always_fatal := by
  cases hd : st.dirty
  · rw [dirty_check_not_dirty E st hd]; rfl
  · cases h1 : (ext E .term_resize_dirty (log .dirty_check st)).full_redraw <;>
      simp [dirty_check, hd, h1]

/-- The welcome messages are `printformat` and `fe_settings_set_print` calls only. -/
theorem print_welcome_trace (B : Build) (E : Env W) (st : State W) :
    ∃ msgs : List Event,
      (print_welcome B E st).trace = st.trace ++ msgs
      ∧ ∀ e ∈ msgs, (∃ f, e = .printformat f) ∨ ∃ k, e = .fe_settings_set_print k := by
  have step : ∀ (c : State W → Bool) (ev : Event) (s : State W) (l : List Event),
      s.trace = st.trace ++ l →
      (∀ e ∈ l, (∃ f, e = .printformat f) ∨ ∃ k, e = .fe_settings_set_print k) →
      ((∃ f, ev = .printformat f) ∨ ∃ k, ev = .fe_settings_set_print k) →
      ∃ l', (call_if E c ev s).trace = st.trace ++ l'
        ∧ ∀ e ∈ l', (∃ f, e = .printformat f) ∨ ∃ k, e = .fe_settings_set_print k := by
    intro c ev s l hs hl hev
    refine ⟨l ++ (if c s then [ev] else []), by simp [hs], ?_⟩
    intro e he
    rcases List.mem_append.mp he with h | h
    · exact hl e h
    · split at h
      · rw [List.mem_singleton.mp h]; exact hev
      · cases h
  obtain ⟨l1, h1, p1⟩ := step (fun s => E.servers_empty s.world)
    (.printformat .TXT_IRSSI_BANNER) st [] (by simp) (by simp) (Or.inl ⟨_, rfl⟩)
  obtain ⟨l2, h2, p2⟩ := step (fun s => s.display_firsttimer)
    (.printformat .TXT_WELCOME_FIRSTTIME) _ l1 h1 p1 (Or.inl ⟨_, rfl⟩)
  obtain ⟨l3, h3, p3⟩ := step (fun s => s.user_settings_changed != 0)
    (.printformat .TXT_WELCOME_INIT_SETTINGS) _ l2 h2 p2 (Or.inl ⟨_, rfl⟩)
  obtain ⟨l4, h4, p4⟩ := step
    (fun s => s.user_settings_changed &&& B.USER_SETTINGS_REAL_NAME != 0)
    (.fe_settings_set_print .real_name) _ l3 h3 p3 (Or.inr ⟨_, rfl⟩)
  obtain ⟨l5, h5, p5⟩ := step
    (fun s => s.user_settings_changed &&& B.USER_SETTINGS_USER_NAME != 0)
    (.fe_settings_set_print .user_name) _ l4 h4 p4 (Or.inr ⟨_, rfl⟩)
  obtain ⟨l6, h6, p6⟩ := step
    (fun s => s.user_settings_changed &&& B.USER_SETTINGS_NICK != 0)
    (.fe_settings_set_print .nick) _ l5 h5 p5 (Or.inr ⟨_, rfl⟩)
  obtain ⟨l7, h7, p7⟩ := step
    (fun s => s.user_settings_changed &&& B.USER_SETTINGS_HOSTNAME != 0)
    (.fe_settings_set_print .hostname) _ l6 h6 p6 (Or.inr ⟨_, rfl⟩)
  exact ⟨l7, h7, p7⟩

@[simp] theorem print_welcome_always_fatal (B : Build) (E : Env W) (st : State W) :
    (print_welcome B E st).always_fatal = st.always_fatal := by
  simp [print_welcome]

/-- The calls of `textui_finish_init` before its `dirty_check`. -/
theorem textui_finish_init_pre_trace (E : Env W) (st : State W) :
    (textui_finish_init_pre E st).trace = st.trace ++
      [.call .term_refresh_freeze, .init .textbuffer, .init .textbuffer_view,
       .init .textbuffer_commands, .init .textbuffer_formats, .init .gui_expandos,
       .init .gui_printtext, .init .gui_readline, .init .gui_entry, .init .lastlog,
       .init .mainwindows, .init .mainwindow_activity, .init .mainwindows_layout,
       .init .gui_windows,
       .g_log_set_always_fatal (G_LOG_FATAL_MASK ||| G_LOG_LEVEL_CRITICAL),
       .init .statusbar, .g_log_set_always_fatal st.always_fatal,
       .call .settings_check, .call .module_register_core_fe_text] := by
  simp [textui_finish_init_pre, critical_fatal_section_begin, critical_fatal_section_end]

@[simp] theorem textui_finish_init_pre_always_fatal (E : Env W) (st : State W) :
    (textui_finish_init_pre E st).always_fatal = st.always_fatal := by
  simp [textui_finish_init_pre, critical_fatal_section_begin, critical_fatal_section_end]

/-- The calls of `textui_finish_init` after its `dirty_check`. -/
theorem textui_finish_init_post_trace (B : Build) (E : Env W) (st : State W) :
    ∃ msgs : List Event,
      (textui_finish_init_post B E st).trace = st.trace ++
        [.g_log_set_always_fatal (G_LOG_FATAL_MASK ||| G_LOG_LEVEL_CRITICAL),
         .call .fe_common_core_finish_init, .g_log_set_always_fatal st.always_fatal,
         .call .term_refresh_thaw, .signal_emit .irssi_init_finished,
         .call .statusbar_redraw] ++ msgs ++ [.call .term_environment_check]
      ∧ ∀ e ∈ msgs, (∃ f, e = .printformat f) ∨ ∃ k, e = .fe_settings_set_print k := by
  unfold textui_finish_init_post
  dsimp only
  obtain ⟨msgs, h, p⟩ := print_welcome_trace B E
    (ext E .statusbar_redraw (signal_emit E .irssi_init_finished (term_refresh_thaw E
      (critical_fatal_section_end E (critical_fatal_section_begin E st).2
        (ext E .fe_common_core_finish_init (critical_fatal_section_begin E st).1)))))
  refine ⟨msgs, ?_, p⟩
  rw [ext_trace, h]
  simp [critical_fatal_section_begin, critical_fatal_section_end]

@[simp] theorem textui_finish_init_post_always_fatal (B : Build) (E : Env W) (st : State W) :
    (textui_finish_init_post B E st).always_fatal = st.always_fatal := by
  simp [textui_finish_init_post, critical_fatal_section_begin, critical_fatal_section_end]

theorem unload_modules_trace_mem (E : Env W) (ms : List Nat) (st : State W) :
    ∃ l : List Event, (unload_modules E ms st).trace = st.trace ++ l
      ∧ ∀ e ∈ l, ∃ m, e = .module_unload m :=
  ⟨ms.map Event.module_unload, unload_modules_trace E ms st, by simp⟩

/-- The calls of `textui_deinit` after its `dirty_check`. -/
theorem textui_deinit_post_trace (E : Env W) (st : State W) :
    (textui_deinit_post E st).trace = st.trace ++
      [.signal_remove .settings_userinfo_changed, .signal_remove .module_autoload,
       .signal_remove .gui_exit,
       .deinit .lastlog, .deinit .statusbar, .deinit .gui_entry, .deinit .gui_printtext,
       .deinit .gui_readline, .deinit .gui_windows, .deinit .mainwindows_layout,
       .deinit .mainwindow_activity, .deinit .mainwindows, .deinit .gui_expandos,
       .deinit .textbuffer_formats, .deinit .textbuffer_commands, .deinit .textbuffer_view,
       .deinit .textbuffer,
       .call .term_refresh_thaw, .call .term_deinit, .call .theme_unregister,
       .call .fe_common_core_deinit, .call .core_deinit] := by
  simp [textui_deinit_post]

theorem textui_deinit_pre_trace (E : Env W) (st : State W) :
    ∃ l : List Event,
      (textui_deinit_pre E st).trace
        = st.trace ++ [.call .signal_SIGINT_default, .call .term_refresh_freeze] ++ l
      ∧ ∀ e ∈ l, ∃ m, e = .module_unload m := by
  unfold textui_deinit_pre
  dsimp only
  obtain ⟨l, h, p⟩ := unload_modules_trace_mem E
    (term_refresh_freeze E (ext E .signal_SIGINT_default st)).modules
    (term_refresh_freeze E (ext E .signal_SIGINT_default st))
  exact ⟨l, by rw [h]; simp, p⟩

/-! ## Reading the traces of initialisation and teardown -/

theorem inits_append (a b : List Event) : inits (a ++ b) = inits a ++ inits b :=
  List.filterMap_append _ _ _

theorem deinits_append (a b : List Event) : deinits (a ++ b) = deinits a ++ deinits b :=
  List.filterMap_append _ _ _

theorem fatal_masks_append (a b : List Event) :
    fatal_masks (a ++ b) = fatal_masks a ++ fatal_masks b :=
  List.filterMap_append _ _ _

theorem inits_hooks (hooks : List Event)
    (hc : hooks = [] ∨ hooks = hooks_incremental ∨ hooks = hooks_full) :
    inits (.dirty_check :: hooks) = [] := by
  rcases hc with rfl | rfl | rfl <;> rfl

theorem deinits_hooks (hooks : List Event)
    (hc : hooks = [] ∨ hooks = hooks_incremental ∨ hooks = hooks_full) :
    deinits hooks = [] ∧ Event.dirty_check ∉ hooks := by
  rcases hc with rfl | rfl | rfl <;> exact ⟨rfl, by decide⟩

theorem fatal_masks_hooks (hooks : List Event)
    (hc : hooks = [] ∨ hooks = hooks_incremental ∨ hooks = hooks_full) :
    fatal_masks (.dirty_check :: hooks) = [] := by
  rcases hc with rfl | rfl | rfl <;> rfl

theorem inits_msgs (msgs : List Event)
    (h : ∀ e ∈ msgs, (∃ f, e = .printformat f) ∨ ∃ k, e = .fe_settings_set_print k) :
    inits msgs = [] := by
  induction msgs with
  | nil => rfl
  | cons e l ih =>
    have hl := ih (fun x hx => h x (List.mem_cons_of_mem _ hx))
    rcases h e (List.mem_cons_self _ _) with ⟨f, rfl⟩ | ⟨k, rfl⟩ <;>
      simpa [inits] using hl

theorem fatal_masks_msgs (msgs : List Event)
    (h : ∀ e ∈ msgs, (∃ f, e = .printformat f) ∨ ∃ k, e = .fe_settings_set_print k) :
    fatal_masks msgs = [] := by
  induction msgs with
  | nil => rfl
  | cons e l ih =>
    have hl := ih (fun x hx => h x (List.mem_cons_of_mem _ hx))
    rcases h e (List.mem_cons_self _ _) with ⟨f, rfl⟩ | ⟨k, rfl⟩ <;>
      simpa [fatal_masks] using hl

theorem deinits_unloads (l : List Event) (h : ∀ e ∈ l, ∃ m, e = .module_unload m) :
    deinits l = [] ∧ Event.dirty_check ∉ l := by
  induction l with
  | nil => exact ⟨rfl, by simp⟩
  | cons e l ih =>
    have hl := ih (fun x hx => h x (List.mem_cons_of_mem _ hx))
    obtain ⟨m, rfl⟩ := h e (List.mem_cons_self _ _)
    exact ⟨by simpa [deinits] using hl.1, by simpa using hl.2⟩

/-- The calls of `textui_finish_init`. -/
theorem textui_finish_init_trace (B : Build) (E : Env W) (st : State W) :
    ∃ hooks msgs : List Event,
      (textui_finish_init B E st).trace = st.trace ++
        [.call .term_refresh_freeze, .init .textbuffer, .init .textbuffer_view,
         .init .textbuffer_commands, .init .textbuffer_formats, .init .gui_expandos,
         .init .gui_printtext, .init .gui_readline, .init .gui_entry, .init .lastlog,
         .init .mainwindows, .init .mainwindow_activity, .init .mainwindows_layout,
         .init .gui_windows,
         .g_log_set_always_fatal (G_LOG_FATAL_MASK ||| G_LOG_LEVEL_CRITICAL),
         .init .statusbar, .g_log_set_always_fatal st.always_fatal,
         .call .settings_check, .call .module_register_core_fe_text]
        ++ .dirty_check :: hooks
        ++ [.g_log_set_always_fatal (G_LOG_FATAL_MASK ||| G_LOG_LEVEL_CRITICAL),
            .call .fe_common_core_finish_init, .g_log_set_always_fatal st.always_fatal,
            .call .term_refresh_thaw, .signal_emit .irssi_init_finished,
            .call .statusbar_redraw]
        ++ msgs ++ [.call .term_environment_check]
      ∧ (hooks = [] ∨ hooks = hooks_incremental ∨ hooks = hooks_full)
      ∧ ∀ e ∈ msgs, (∃ f, e = .printformat f) ∨ ∃ k, e = .fe_settings_set_print k := by
  obtain ⟨msgs, hpost, pm⟩ :=
    textui_finish_init_post_trace B E (dirty_check E (textui_finish_init_pre E st))
  obtain ⟨hooks, hdc, ph⟩ := dirty_check_trace_cases E (textui_finish_init_pre E st)
  refine ⟨hooks, msgs, ?_, ph, pm⟩
  unfold textui_finish_init
  rw [hpost, hdc, textui_finish_init_pre_trace]
  simp

/-- The calls of `textui_deinit`. -/
theorem textui_deinit_trace (E : Env W) (st : State W) :
    ∃ unloads hooks : List Event,
      (textui_deinit E st).trace = st.trace
        ++ ([.call .signal_SIGINT_default, .call .term_refresh_freeze] ++ unloads)
        ++ [.dirty_check]
        ++ (hooks ++
            [.signal_remove .settings_userinfo_changed, .signal_remove .module_autoload,
             .signal_remove .gui_exit,
             .deinit .lastlog, .deinit .statusbar, .deinit .gui_entry,
             .deinit .gui_printtext, .deinit .gui_readline, .deinit .gui_windows,
             .deinit .mainwindows_layout, .deinit .mainwindow_activity, .deinit .mainwindows,
             .deinit .gui_expandos, .deinit .textbuffer_formats,
             .deinit .textbuffer_commands, .deinit .textbuffer_view, .deinit .textbuffer,
             .call .term_refresh_thaw])
        ++ [.call .term_deinit]
        ++ [.call .theme_unregister, .call .fe_common_core_deinit, .call .core_deinit]
      ∧ (∀ e ∈ unloads, ∃ m, e = .module_unload m)
      ∧ (hooks = [] ∨ hooks = hooks_incremental ∨ hooks = hooks_full) := by
  obtain ⟨unloads, hpre, pu⟩ := textui_deinit_pre_trace E st
  obtain ⟨hooks, hdc, ph⟩ := dirty_check_trace_cases E (textui_deinit_pre E st)
  refine ⟨unloads, hooks, ?_, pu, ph⟩
  unfold textui_deinit
  rw [textui_deinit_post_trace, hdc, hpre]
  simp

/-! ## C9: the order of teardown -/

/-- C9 as stated fails: in a quiet world the subsystems deinitialised by `textui_deinit`,
in order, are not the reverse of those initialised by `textui_finish_init` (`lastlog`
is deinitialised first although it was initialised ninth of fourteen). -/
theorem deinit_reverse_counterexample :
    deinits (new_events State.start (textui_deinit Env.quiet State.start))
      ≠ (inits (new_events State.start
          (textui_finish_init Build.linux_x86_64 Env.quiet State.start))).reverse := by
  decide

/-- C9, amended: `textui_deinit` deinitialises exactly the fourteen subsystems that
`textui_finish_init` initialised, each once, in the order lastlog, statusbar, gui_entry,
gui_printtext, gui_readline, gui_windows, mainwindows_layout, mainwindow_activity,
mainwindows, gui_expandos, textbuffer_formats, textbuffer_commands, textbuffer_view,
textbuffer: a permutation of the reversed initialisation order whose last five entries
are the first five initialised, reversed.  All `*_deinit` calls come after the one
`dirty_check` of `textui_deinit` and before `term_deinit`. -/
theorem deinit_order (B : Build) (E : Env W) (st st' : State W) :
    inits (new_events st (textui_finish_init B E st))
        = [.textbuffer, .textbuffer_view, .textbuffer_commands, .textbuffer_formats,
           .gui_expandos, .gui_printtext, .gui_readline, .gui_entry, .lastlog,
           .mainwindows, .mainwindow_activity, .mainwindows_layout, .gui_windows,
           .statusbar]
      ∧ deinits (new_events st' (textui_deinit E st'))
        = [.lastlog, .statusbar, .gui_entry, .gui_printtext, .gui_readline, .gui_windows,
           .mainwindows_layout, .mainwindow_activity, .mainwindows, .gui_expandos,
           .textbuffer_formats, .textbuffer_commands, .textbuffer_view, .textbuffer]
      ∧ List.Perm (deinits (new_events st' (textui_deinit E st')))
          (inits (new_events st (textui_finish_init B E st))).reverse
      ∧ (deinits (new_events st' (textui_deinit E st'))).drop 9
          = ((inits (new_events st (textui_finish_init B E st))).take 5).reverse
      ∧ ∃ pre mid post : List Event,
          new_events st' (textui_deinit E st')
            = pre ++ [.dirty_check] ++ mid ++ [.call .term_deinit] ++ post
          ∧ Event.dirty_check ∉ pre ++ mid ++ post
          ∧ deinits pre = [] ∧ deinits post = []
          ∧ deinits mid = deinits (new_events st' (textui_deinit E st')) := by
  obtain ⟨hooks, msgs, hfi, ph, pm⟩ := textui_finish_init_trace B E st
  obtain ⟨unloads, hooks', hde, pu, ph'⟩ := textui_deinit_trace E st'
  have hfi' := new_events_of_append (by simpa only [List.append_assoc] using hfi)
  have hde' := new_events_of_append (by simpa only [List.append_assoc] using hde)
  have hi : inits (new_events st (textui_finish_init B E st))
      = [.textbuffer, .textbuffer_view, .textbuffer_commands, .textbuffer_formats,
         .gui_expandos, .gui_printtext, .gui_readline, .gui_entry, .lastlog,
         .mainwindows, .mainwindow_activity, .mainwindows_layout, .gui_windows,
         .statusbar] := by
    rw [hfi']
    simp only [inits_append, inits_hooks hooks ph, inits_msgs msgs pm]
    simp [inits]
  have hd : deinits (new_events st' (textui_deinit E st'))
      = [.lastlog, .statusbar, .gui_entry, .gui_printtext, .gui_readline, .gui_windows,
         .mainwindows_layout, .mainwindow_activity, .mainwindows, .gui_expandos,
         .textbuffer_formats, .textbuffer_commands, .textbuffer_view, .textbuffer] := by
    rw [hde']
    simp only [deinits_append, (deinits_hooks hooks' ph').1, (deinits_unloads unloads pu).1]
    simp [deinits]
  refine ⟨hi, hd, ?_, ?_, ?_⟩
  · rw [hi, hd]; decide
  · rw [hi, hd]; rfl
  · refine ⟨[.call .signal_SIGINT_default, .call .term_refresh_freeze] ++ unloads,
      hooks' ++
        [.signal_remove .settings_userinfo_changed, .signal_remove .module_autoload,
         .signal_remove .gui_exit,
         .deinit .lastlog, .deinit .statusbar, .deinit .gui_entry,
         .deinit .gui_printtext, .deinit .gui_readline, .deinit .gui_windows,
         .deinit .mainwindows_layout, .deinit .mainwindow_activity, .deinit .mainwindows,
         .deinit .gui_expandos, .deinit .textbuffer_formats,
         .deinit .textbuffer_commands, .deinit .textbuffer_view, .deinit .textbuffer,
         .call .term_refresh_thaw],
      [.call .theme_unregister, .call .fe_common_core_deinit, .call .core_deinit],
      ?_, ?_, ?_, rfl, ?_⟩
    · rw [hde']; simp only [List.append_assoc]
    · have h1 := (deinits_unloads unloads pu).2
      have h2 := (deinits_hooks hooks' ph').2
      simp [h1, h2]
    · simp only [deinits_append, (deinits_unloads unloads pu).1]
      rfl
    · rw [hd]
      simp only [deinits_append, (deinits_hooks hooks' ph').1]
      simp [deinits]

/-! ## C10: the critical-fatal sections -/

theorem textui_init_trace (B : Build) (E : Env W) (st : State W) :
    (textui_init B E st).trace = st.trace
      ++ (if B.has_SIGTRAP then [.call .sigaction_SIGTRAP_ignore] else [])
      ++ [.call .core_init, .call .fe_common_core_init, .call .theme_register,
          .signal_add .settings_userinfo_changed, .signal_add .module_autoload,
          .signal_add_last .gui_exit] := by
  simp [textui_init]

@[simp] theorem textui_init_always_fatal (B : Build) (E : Env W) (st : State W) :
    (textui_init B E st).always_fatal = st.always_fatal := by
  simp [textui_init]

theorem check_files_trace (E : Env W) (st : State W) :
    (check_files E st).trace = st.trace ++ [.call .stat_irssi_dir] := by
  unfold check_files; dsimp only; split <;> simp

@[simp] theorem check_files_always_fatal (E : Env W) (st : State W) :
    (check_files E st).always_fatal = st.always_fatal := by
  unfold check_files; dsimp only; split <;> simp

/-- In `textui_finish_init` both sections are closed: the masks installed are raised,
saved, raised, saved, and the mask on return is the one on entry. -/
theorem textui_finish_init_sections (B : Build) (E : Env W) (st : State W) :
    fatal_masks (new_events st (textui_finish_init B E st))
        = [G_LOG_FATAL_MASK ||| G_LOG_LEVEL_CRITICAL, st.always_fatal,
           G_LOG_FATAL_MASK ||| G_LOG_LEVEL_CRITICAL, st.always_fatal]
      ∧ (textui_finish_init B E st).always_fatal = st.always_fatal := by
  obtain ⟨hooks, msgs, hfi, ph, pm⟩ := textui_finish_init_trace B E st
  refine ⟨?_, by simp [textui_finish_init]⟩
  rw [new_events_of_append (by simpa only [List.append_assoc] using hfi)]
  simp only [fatal_masks_append, fatal_masks_hooks hooks ph, fatal_masks_msgs msgs pm]
  simp [fatal_masks]

/-- The state in which `main` returns 1. -/
theorem main_startup_term_init_failure (B : Build) (E : Env W) (st : State W)
    (hv : ∀ w, (E.call (.call .args_execute) w).2.result = false)
    (ht : ∀ w, (E.call (.call .term_init) w).2.result = false) :
    ∃ st' : State W, main_startup B E st = .error (st', 1)
      ∧ st'.trace = st.trace
          ++ [.call .core_register_options, .call .fe_common_core_register_options,
              .call .args_register, .call .args_execute, .call .core_preinit,
              .call .stat_irssi_dir, .call .setlocale, .call .tzset,
              .g_log_set_always_fatal (G_LOG_FATAL_MASK ||| G_LOG_LEVEL_CRITICAL)]
          ++ (if B.has_SIGTRAP then [.call .sigaction_SIGTRAP_ignore] else [])
          ++ [.call .core_init, .call .fe_common_core_init, .call .theme_register,
              .signal_add .settings_userinfo_changed, .signal_add .module_autoload,
              .signal_add_last .gui_exit, .call .term_init,
              .call .fprintf_stderr_no_screen_handling]
      ∧ st'.always_fatal = G_LOG_FATAL_MASK ||| G_LOG_LEVEL_CRITICAL := by
  refine ⟨_, by simp [main_startup, ext_result, hv, ht]; rfl, ?_, ?_⟩
  · simp [textui_init_trace, check_files_trace, critical_fatal_section_begin]
  · simp [critical_fatal_section_begin]

/-- C10 at the failing path: when `--version` is not given and `term_init` fails, `main`
returns 1 having called `g_log_set_always_fatal` exactly once, for
`critical_fatal_section_begin`; its last call is the `fprintf` of the error message,
and the always-fatal mask is left raised: `critical_fatal_section_end` is not called on
this path. -/
theorem main_term_init_failure (B : Build) (E : Env W) (fuel : Nat) (st : State W)
    (hv : ∀ w, (E.call (.call .args_execute) w).2.result = false)
    (ht : ∀ w, (E.call (.call .term_init) w).2.result = false) :
    ∃ st' : State W, main B E fuel st = some (st', 1)
      ∧ fatal_masks (new_events st st') = [G_LOG_FATAL_MASK ||| G_LOG_LEVEL_CRITICAL]
      ∧ (new_events st st').getLast? = some (.call .fprintf_stderr_no_screen_handling)
      ∧ st'.always_fatal = G_LOG_FATAL_MASK ||| G_LOG_LEVEL_CRITICAL
      ∧ (st.always_fatal = G_LOG_FATAL_MASK → st'.always_fatal ≠ st.always_fatal) := by
  obtain ⟨st', hm, htr, hf⟩ := main_startup_term_init_failure B E st hv ht
  refine ⟨st', by simp [main, hm], ?_, ?_, hf, ?_⟩
  · rw [new_events_of_append (by simpa only [List.append_assoc] using htr)]
    cases B.has_SIGTRAP <;> rfl
  · rw [new_events_of_append (by simpa only [List.append_assoc] using htr)]
    cases B.has_SIGTRAP <;> rfl
  · intro h0
    rw [hf, h0]
    decide

/-- C10 at the failing path, in a quiet world, where `term_init` answers 0. -/
theorem main_term_init_failure_witness :
    ∃ st' : State Unit, main Build.linux_x86_64 Env.quiet 0 State.start = some (st', 1)
      ∧ fatal_masks (new_events State.start st') = [G_LOG_FATAL_MASK ||| G_LOG_LEVEL_CRITICAL] :=
  let ⟨st', h1, h2, _⟩ := main_term_init_failure Build.linux_x86_64 Env.quiet 0 State.start
    (fun _ => rfl) (fun _ => rfl)
  ⟨st', h1, h2⟩

/-! ## `sig_exit` stays connected from `textui_init` to the event loop -/

@[simp] theorem log_registered (ev : Event) (st : State W) :
    (log ev st).sig_exit_registered = st.sig_exit_registered := rfl

@[simp] theorem call_if_registered (E : Env W) (c : State W → Bool) (ev : Event)
    (st : State W) : (call_if E c ev st).sig_exit_registered = st.sig_exit_registered := by
  unfold call_if; split <;> simp

@[simp] theorem term_refresh_freeze_registered (E : Env W) (st : State W) :
    (term_refresh_freeze E st).sig_exit_registered = st.sig_exit_registered := by
  simp [term_refresh_freeze]

@[simp] theorem term_refresh_thaw_registered (E : Env W) (st : State W) :
    (term_refresh_thaw E st).sig_exit_registered = st.sig_exit_registered := by
  simp [term_refresh_thaw]

@[simp] theorem g_log_set_always_fatal_registered (E : Env W) (m : Nat) (st : State W) :
    (g_log_set_always_fatal E m st).1.sig_exit_registered = st.sig_exit_registered := by
  simp [g_log_set_always_fatal]

@[simp] theorem dirty_check_registered (E : Env W) (st : State W) :
    (dirty_check E st).sig_exit_registered = st.sig_exit_registered := by
  cases hd : st.dirty
  · rw [dirty_check_not_dirty E st hd]; rfl
  · cases h1 : (ext E .term_resize_dirty (log .dirty_check st)).full_redraw <;>
      simp [dirty_check, hd, h1]

@[simp] theorem textui_init_registered (B : Build) (E : Env W) (st : State W) :
    (textui_init B E st).sig_exit_registered = true := by
  simp [textui_init]

@[simp] theorem textui_finish_init_registered (B : Build) (E : Env W) (st : State W) :
    (textui_finish_init B E st).sig_exit_registered = st.sig_exit_registered := by
  simp [textui_finish_init, textui_finish_init_post, textui_finish_init_pre, print_welcome,
    critical_fatal_section_begin, critical_fatal_section_end]

@[simp] theorem install_sandbox_registered (B : Build) (E : Env W) (st : State W) :
    (install_sandbox B E st).sig_exit_registered = st.sig_exit_registered := by
  unfold install_sandbox
  dsimp only
  split
  · simp
  · split
    · split <;> simp
    · simp

/-- On reaching the event loop, `sig_exit` is connected to "gui exit". -/
theorem main_startup_registered (B : Build) (E : Env W) (st st' : State W)
    (h : main_startup B E st = .ok st') : st'.sig_exit_registered = true := by
  unfold main_startup at h
  dsimp only at h
  split at h
  · cases h
  · split at h
    · cases h
    · injection h with h
      rw [← h]
      simp [critical_fatal_section_end]

/-- The event loop keeps `sig_exit` connected. -/
theorem main_iteration_registered (E : Env W) (st : State W) :
    (main_iteration E st).sig_exit_registered = st.sig_exit_registered := by
  have hh : (handle_sighup E (handle_sigterm E st)).sig_exit_registered
      = st.sig_exit_registered := by
    unfold handle_sighup
    split
    · dsimp only; split <;> simp
    · simp
  simp [main_iteration, hh]

/-! ## C11: flushing twice -/

/-- A `dirty_check` entered with `dirty` set and `full_redraw` unset, during which
`term_resize_dirty` does not call `irssi_redraw`, makes the incremental calls only. -/
theorem dirty_check_trace_incremental (E : Env W) (st : State W)
    (hd : st.dirty = true) (hf : st.full_redraw = false)
    (hr : Callback.mark .irssi_redraw
      ∉ (E.call (.call .term_resize_dirty) st.world).2.callbacks) :
    (dirty_check E st).trace = st.trace ++ .dirty_check :: hooks_incremental := by
  have h1 : (ext E .term_resize_dirty (log .dirty_check st)).full_redraw = false :=
    (ext_full_eq E .term_resize_dirty (log .dirty_check st) hr).trans hf
  simp [dirty_check, hd, h1, hooks_incremental]

/-- C11 as stated fails.  When `statusbar_redraw_dirty` calls `irssi_redraw`, the state
after a `dirty_check` from Dirty has `full_redraw` set and is not Clean, and a second
`dirty_check` leaves it so.  When `term_resize_dirty` calls `irssi_redraw`, a
`dirty_check` from Dirty (`full_redraw` unset) calls `term_clear` and the full repaint
hooks. -/
theorem dirty_check_idempotent_counterexample :
    level State.dirty_only = some .Dirty
      ∧ level (dirty_check Env.remarking State.dirty_only) = none
      ∧ level (dirty_check Env.remarking (dirty_check Env.remarking State.dirty_only)) = none
      ∧ new_events State.dirty_only (dirty_check Env.resizing State.dirty_only)
          = .dirty_check :: hooks_full
      ∧ Event.call .term_clear
          ∈ new_events State.dirty_only (dirty_check Env.resizing State.dirty_only)
      ∧ Event.call .mainwindows_redraw
          ∈ new_events State.dirty_only (dirty_check Env.resizing State.dirty_only) := by
  decide

/-- C11, amended: at every freeze depth (so at depth 0), `dirty` is unset after a
`dirty_check`, and a second `dirty_check` right after it calls no hook and changes
neither flag (only its entry is logged).  From a state in which `full_redraw` implies
`dirty` (Clean, Dirty or DirtyFull), when none of the hooks called after
`term_resize_dirty` (`term_clear`, `term_refresh`, `mainwindows_redraw`,
`statusbar_redraw`, `mainwindows_redraw_dirty`, `statusbar_redraw_dirty`) calls
`irssi_redraw`, the state after the first `dirty_check` is Clean and stays Clean after
the second.  A `dirty_check` from Dirty during which `term_resize_dirty` does not call
`irssi_redraw` makes exactly the calls `term_resize_dirty`, `mainwindows_redraw_dirty`,
`statusbar_redraw_dirty`, `term_refresh`: neither `term_clear` nor a full repaint
hook. -/
theorem dirty_check_idempotent (E : Env W) (st : State W) :
    (dirty_check E st).dirty = false
      ∧ dirty_check E (dirty_check E st) = log .dirty_check (dirty_check E st)
      ∧ new_events (dirty_check E st) (dirty_check E (dirty_check E st)) = [.dirty_check]
      ∧ (dirty_check E (dirty_check E st)).dirty = false
      ∧ (dirty_check E (dirty_check E st)).full_redraw = (dirty_check E st).full_redraw
      ∧ (Inv st →
          (∀ f ∈ late_hooks, ∀ x : W,
            Callback.mark .irssi_redraw ∉ (E.call (.call f) x).2.callbacks) →
          level (dirty_check E st) = some .Clean
          ∧ level (dirty_check E (dirty_check E st)) = some .Clean)
      ∧ (level st = some .Dirty →
          Callback.mark .irssi_redraw
            ∉ (E.call (.call .term_resize_dirty) st.world).2.callbacks →
          new_events st (dirty_check E st) = .dirty_check :: hooks_incremental
          ∧ Event.call .term_clear ∉ new_events st (dirty_check E st)
          ∧ Event.call .mainwindows_redraw ∉ new_events st (dirty_check E st)
          ∧ Event.call .statusbar_redraw ∉ new_events st (dirty_check E st)) := by
  have h2 : dirty_check E (dirty_check E st) = log .dirty_check (dirty_check E st) :=
    dirty_check_not_dirty E _ (dirty_check_clears_dirty E st)
  refine ⟨dirty_check_clears_dirty E st, h2, ?_, dirty_check_clears_dirty E _, ?_, ?_, ?_⟩
  · rw [h2]; exact new_events_of_append rfl
  · rw [h2]; rfl
  · intro hinv hE
    have hf : (dirty_check E st).full_redraw = false := by
      cases hd : st.dirty
      · rw [dirty_check_not_dirty E st hd]
        cases hfr : st.full_redraw
        · exact hfr
        · exact absurd (hinv hfr) (by simp [hd])
      · exact dirty_check_clears_full E st hd hE
    have hc : level (dirty_check E st) = some .Clean := by
      unfold level
      rw [dirty_check_clears_dirty E st, hf]
    refine ⟨hc, ?_⟩
    rw [h2]
    exact hc
  · intro hl hr
    have hd : st.dirty = true := by
      unfold level at hl
      cases h : st.dirty <;> cases h' : st.full_redraw <;> simp_all
    have hf : st.full_redraw = false := by
      unfold level at hl
      cases h : st.dirty <;> cases h' : st.full_redraw <;> simp_all
    rw [new_events_of_append (dirty_check_trace_incremental E st hd hf hr)]
    exact ⟨rfl, by decide, by decide, by decide⟩

/-- C11, amended, in a quiet world from the Dirty state: the flush makes the incremental
calls only and leaves the state Clean. -/
theorem dirty_check_idempotent_witness :
    level (dirty_check Env.quiet State.dirty_only) = some .Clean
      ∧ new_events State.dirty_only (dirty_check Env.quiet State.dirty_only)
          = .dirty_check :: hooks_incremental :=
  ⟨((dirty_check_idempotent Env.quiet State.dirty_only).2.2.2.2.2.1 (fun h => (by cases h))
      (fun _ _ _ h => (by cases h))).1,
   ((dirty_check_idempotent Env.quiet State.dirty_only).2.2.2.2.2.2 rfl
      (fun h => (by cases h))).1⟩

end Irssi
